import Mathlib

/-!
Verification of the fraud-risk scoring core of the whistleblower-workbench
repository.

The development shallowly embeds the JavaScript sources that the claims
reference:

* `src/ml/models/fraud-detector.js` — the `FraudDetector` class
  (training, ensemble scoring, persistence);
* `src/ml/training/feature-extractor.js` — the module-level feature
  extractor (`extractContractorFeatures`, `extractHealthcareFeatures`
  and their helpers);
* `src/app/api/ml/score/route.js` — the serving route's own
  `extractFeatures`, `scoreContractor` and `loadModel`.

Modelling conventions, used consistently below:

* JavaScript numbers are modelled as rationals (`ℚ`) wherever the code
  keeps them finite; the places where the source can produce `NaN` or
  `±Infinity` (unguarded divisions, `Math.max()` of an empty spread) use
  the explicit `JsNum` type below, which carries those special values.
* `Math.round x` is `⌊x + 1/2⌋` (JavaScript rounds half toward `+∞`),
  `Math.floor` is `⌊·⌋`.
* `Math.sqrt` is modelled by `ratSqrt`, a total function on `ℚ` that
  agrees with the real square root on every perfect rational square
  (in particular on `0`); no theorem below depends on its value at a
  non-square, and every concrete evaluation in this file applies it to
  perfect squares only.
* JavaScript objects used as string-keyed maps become association lists
  `List (String × α)` with first-match lookup; object keys are unique in
  JavaScript, so vectors built by the code never carry duplicate keys.
* An absent object property (`undefined`) becomes `Option.none`; the
  JavaScript comparisons `undefined > x`, `x > undefined`,
  `x >= undefined` are all false, which `optGt`/`geOpt` mirror.
* Truthiness: the number `0` and `NaN` are falsy, every other number is
  truthy; `a || b` on numbers becomes `if a = 0 then b else a`.
* String fields (`Description`, `Awarding Agency`, `Start Date`) are
  Lean `String`s; an absent field is the empty string, matching the
  `(x || '')` and `if (date)` idioms of the source.  `-0` is conflated
  with `0`; nothing in the claims distinguishes them.
-/

/-- Model of a JavaScript number: a finite rational, an infinity, or `NaN`. -/
inductive JsNum where
  | num : ℚ → JsNum
  | posInf : JsNum
  | negInf : JsNum
  | nan : JsNum
deriving DecidableEq, Repr

namespace JsNum

/-- A JavaScript number is finite when it is an actual rational. -/
def isFinite : JsNum → Bool
  | num _ => true
  | _ => false

/-- JavaScript addition, with `NaN` propagation and infinity arithmetic. -/
def add : JsNum → JsNum → JsNum
  | nan, _ => nan
  | _, nan => nan
  | posInf, negInf => nan
  | negInf, posInf => nan
  | posInf, _ => posInf
  | _, posInf => posInf
  | negInf, _ => negInf
  | _, negInf => negInf
  | num a, num b => num (a + b)

/-- JavaScript multiplication: `Infinity * 0` is `NaN`, signs propagate. -/
def mul : JsNum → JsNum → JsNum
  | nan, _ => nan
  | _, nan => nan
  | posInf, posInf => posInf
  | posInf, negInf => negInf
  | negInf, posInf => negInf
  | negInf, negInf => posInf
  | posInf, num b => if b = 0 then nan else if 0 < b then posInf else negInf
  | num a, posInf => if a = 0 then nan else if 0 < a then posInf else negInf
  | negInf, num b => if b = 0 then nan else if 0 < b then negInf else posInf
  | num a, negInf => if a = 0 then nan else if 0 < a then negInf else posInf
  | num a, num b => num (a * b)

/-- JavaScript division: `0/0` is `NaN`, `x/0` is a signed infinity for
nonzero `x`, `Infinity/Infinity` is `NaN`, finite over infinite is `0`. -/
def div : JsNum → JsNum → JsNum
  | nan, _ => nan
  | _, nan => nan
  | posInf, posInf => nan
  | posInf, negInf => nan
  | negInf, posInf => nan
  | negInf, negInf => nan
  | posInf, num b => if b < 0 then negInf else posInf
  | negInf, num b => if b < 0 then posInf else negInf
  | num _, posInf => num 0
  | num _, negInf => num 0
  | num a, num b =>
      if b = 0 then (if a = 0 then nan else if 0 < a then posInf else negInf)
      else num (a / b)

/-- JavaScript strict `>` on numbers: any comparison with `NaN` is false. -/
def gtB : JsNum → JsNum → Bool
  | nan, _ => false
  | _, nan => false
  | num a, num b => b < a
  | posInf, posInf => false
  | posInf, _ => true
  | _, posInf => false
  | negInf, _ => false
  | num _, negInf => true

/-- Truthiness of a JavaScript number: `0` and `NaN` are falsy. -/
def truthy : JsNum → Bool
  | num a => a ≠ 0
  | nan => false
  | _ => true

/-- The `a || b` idiom on JavaScript numbers. -/
def orElse (a b : JsNum) : JsNum := if a.truthy then a else b

end JsNum

/-- Sum of a list of JavaScript numbers, as `reduce((a, b) => a + b, 0)`. -/
def jsSum (l : List JsNum) : JsNum := l.foldl JsNum.add (JsNum.num 0)

/-- The spread `Math.max(...l)` over finite values: `-Infinity` on `[]`. -/
def jsListMax : List ℚ → JsNum
  | [] => JsNum.negInf
  | a :: rest => JsNum.num (rest.foldl max a)

/-- The spread `Math.min(...l)` over finite values: `Infinity` on `[]`. -/
def jsListMin : List ℚ → JsNum
  | [] => JsNum.posInf
  | a :: rest => JsNum.num (rest.foldl min a)

/-- JavaScript `Math.round`: nearest integer, half toward `+∞`.
`Rat.floor` is used rather than the `⌊·⌋` notation so that concrete
instances reduce inside `decide`. -/
def jsRound (q : ℚ) : ℤ := Rat.floor (q + 1 / 2)

/-- `Rat.floor` is the floor of the `FloorRing` instance on `ℚ`. -/
theorem ratFloor_eq_floor (q : ℚ) : Rat.floor q = ⌊q⌋ := by
  rw [Rat.floor_def', Rat.floor_def]

/-- `jsRound` written with the mathematical floor. -/
theorem jsRound_eq_floor (q : ℚ) : jsRound q = ⌊q + 1 / 2⌋ := by
  rw [jsRound, ratFloor_eq_floor]

/-- `Math.round` is monotone. -/
theorem jsRound_mono {a b : ℚ} (h : a ≤ b) : jsRound a ≤ jsRound b := by
  rw [jsRound_eq_floor, jsRound_eq_floor]
  exact Int.floor_mono (by linarith)

/-- `Math.round` of a number exceeding `-1/2` is nonnegative. -/
theorem jsRound_nonneg {q : ℚ} (h : -(1 / 2) ≤ q) : 0 ≤ jsRound q := by
  rw [jsRound_eq_floor]
  exact Int.le_floor.2 (by push_cast; linarith)

/-- The `Math.round(x * 100) / 100` two-decimal rounding used for
confidences. -/
def jsRound2 (q : ℚ) : ℚ := (jsRound (q * 100) : ℚ) / 100

/-- Model of `Math.sqrt` on the rationals: exact on every perfect rational
square (a nonnegative `q` whose reduced numerator and denominator are both
perfect squares), total elsewhere.  No theorem in this file depends on its
value at a non-square. -/
def ratSqrt (q : ℚ) : ℚ :=
  if q < 0 then 0 else mkRat (Nat.sqrt q.num.toNat) (Nat.sqrt q.den)

/-- First-match lookup in an association list, i.e. reading a property of a
JavaScript object. -/
def alookup {α : Type} : List (String × α) → String → Option α
  | [], _ => none
  | p :: rest, k => if p.1 == k then some p.2 else alookup rest k

/-- JavaScript `a > b` where either side may be `undefined` (absent):
any comparison involving `undefined` is false. -/
def optGt : Option ℚ → Option ℚ → Bool
  | some a, some b => b < a
  | _, _ => false

/-- JavaScript `a >= b` where the right side may be `undefined`. -/
def geOpt (s : ℚ) : Option ℚ → Bool
  | some t => t ≤ s
  | none => false

/-- Truthiness of a possibly-absent number (`undefined`, `0` falsy). -/
def optTruthy : Option ℚ → Bool
  | some v => v ≠ 0
  | none => false

/-- Lower-case a string, as `toLowerCase()` (ASCII is all the source uses). -/
def jsToLower (s : String) : String := s.map Char.toLower

/-- Substring containment, as JavaScript `String.includes`. -/
def strContains (s pat : String) : Bool :=
  List.any (List.range (s.length + 1)) fun i =>
    (s.toList.drop i).take pat.length == pat.toList

/-- `ratSqrt 0 = 0`, the only value of `ratSqrt` the concrete evaluations
below ever need. -/
theorem ratSqrt_zero : ratSqrt 0 = 0 := by
  norm_num [ratSqrt, Rat.num_ofNat, Rat.den_ofNat, Nat.sqrt_zero, Nat.sqrt_one]

example : strContains "sole source contract" "sole source" = true := by decide
example : strContains "abc" "d" = false := by decide
example : jsRound (-(1 : ℚ) / 2) = 0 := by
  norm_num +decide [jsRound, ratFloor_eq_floor]
example : jsRound (5 / 2 : ℚ) = 3 := by
  norm_num +decide [jsRound, ratFloor_eq_floor]

/-- JavaScript `a >= b` on numbers: false when either side is `NaN`. -/
def JsNum.geB : JsNum → JsNum → Bool
  | JsNum.nan, _ => false
  | _, JsNum.nan => false
  | JsNum.num a, JsNum.num b => b ≤ a
  | JsNum.posInf, _ => true
  | _, JsNum.posInf => false
  | JsNum.negInf, JsNum.negInf => true
  | JsNum.negInf, _ => false
  | JsNum.num _, JsNum.negInf => true

/-- `reduce((a, b) => a + b, 0)` over finite values. -/
def jsSumQ (l : List ℚ) : ℚ := l.foldl (fun a b => a + b) 0

/-- `map[k] = (map[k] || 0) + v` on a string-keyed accumulator object:
add to an existing key or append a new key at the end (JavaScript objects
preserve insertion order). -/
def upsertAdd : List (String × ℚ) → String → ℚ → List (String × ℚ)
  | [], k, v => [(k, v)]
  | p :: rest, k, v =>
      if p.1 == k then (p.1, p.2 + v) :: rest else p :: upsertAdd rest k v

/-- Stable insertion used by `stableSort`.  Inserting an earlier element
into the sorted tail keeps it before any tie. -/
def insertLe {α : Type} (le : α → α → Bool) (a : α) : List α → List α
  | [] => [a]
  | b :: rest => if le a b then a :: b :: rest else b :: insertLe le a rest

/-- Model of JavaScript `Array.prototype.sort` with a consistent comparator:
a stable sort by the boolean relation `le`. -/
def stableSort {α : Type} (le : α → α → Bool) (l : List α) : List α :=
  l.foldr (insertLe le) []

/-- Lexicographic `≤` on strings as a boolean, the order of the default
(comparator-less) JavaScript `sort()` for the ASCII strings the code sorts. -/
def strLeB (a b : String) : Bool := a == b || decide (a < b)

/-!
## Feature extractor module (`src/ml/training/feature-extractor.js`)

A raw award record keeps the four properties the extractor reads.  The
`Award Amount` field is stored after the source's `parseFloat(...) || 0`
step, hence as a finite rational; the three string fields store `''` for
an absent property, matching the `(x || '')` and `if (date)` idioms.
-/

/-- One award row, as consumed by `extractContractorFeatures`. -/
structure Award where
  awardAmount : ℚ
  startDate : String
  awardingAgency : String
  description : String
deriving DecidableEq, Repr

/-- Helper `calculateStdDev`: population standard deviation, `0` when the
list is empty (the source's `if (n === 0) return 0` guard). -/
def calculateStdDev (values : List ℚ) : ℚ :=
  if values.length = 0 then 0
  else
    let n : ℚ := values.length
    let mean := jsSumQ values / n
    ratSqrt (jsSumQ (values.map (fun v => (v - mean) ^ 2)) / n)

/-- Helper `groupByYear(items, 'Start Date')`: totals of `Award Amount`
keyed by the first four characters of the start date; records with an
empty (falsy) date are skipped. -/
def groupByYear (items : List Award) : List (String × ℚ) :=
  items.foldl
    (fun byYear item =>
      if item.startDate ≠ "" then
        upsertAdd byYear (item.startDate.take 4) item.awardAmount
      else byYear)
    []

/-- Helper `calculateGrowthRate`: ratio of the last sorted year's total to
the previous year's (`|| 1` on the denominator), and `0` when fewer than
two distinct years are present. -/
def calculateGrowthRate (byYear : List (String × ℚ)) : ℚ :=
  let years := stableSort strLeB (byYear.map Prod.fst)
  if years.length < 2 then 0
  else
    let lastYear := ((alookup byYear (years.getD (years.length - 1) "")).getD 0)
    let prevYearRaw := ((alookup byYear (years.getD (years.length - 2) "")).getD 0)
    let prevYear := if prevYearRaw = 0 then 1 else prevYearRaw
    lastYear / prevYear

/-- The `'Awarding Agency' || 'Unknown'` key used for agency counting. -/
def agencyKey (a : Award) : String :=
  if a.awardingAgency = "" then "Unknown" else a.awardingAgency

/-- Per-agency award counts, in first-seen order. -/
def agencyCounts (awards : List Award) : List (String × ℚ) :=
  awards.foldl (fun m a => upsertAdd m (agencyKey a) 1) []

/-- The high-risk keyword list of the module extractor. -/
def highRiskKeywords : List String :=
  ["consulting", "advisory", "professional services",
   "it services", "software", "support", "emergency"]

/-- Defense-branch test on a lower-cased agency name. -/
def isDefenseAgency (agency : String) : Bool :=
  let la := jsToLower agency
  strContains la "defense" || strContains la "army" ||
    strContains la "navy" || strContains la "air force"

/-- `extractContractorFeatures(contractor, awards)`.  The `contractor`
argument is never read by the source, so it is dropped here.  Entries are
listed in the source's property-insertion order; values use `JsNum`
because the unguarded divisions and empty-spread `Math.max`/`Math.min`
can produce `NaN` and `±Infinity`. -/
def extractContractorFeatures (awards : List Award) : List (String × JsNum) :=
  let amounts := awards.map Award.awardAmount
  let len : ℚ := amounts.length
  let totalAwarded := jsSumQ amounts
  let avgAward := JsNum.orElse (JsNum.div (.num totalAwarded) (.num len)) (.num 0)
  let shares := amounts.map (fun a => JsNum.div (.num a) (.num totalAwarded))
  let concentrationIndex :=
    shares.foldl (fun s x => JsNum.add s (JsNum.mul x x)) (.num 0)
  let maxAgencyShare :=
    JsNum.div (jsListMax ((agencyCounts awards).map Prod.snd)) (.num len)
  let soleCount : ℚ :=
    (awards.filter (fun a => strContains (jsToLower a.description) "sole source")).length
  let highRiskCount : ℚ :=
    (awards.filter (fun a =>
      highRiskKeywords.any (fun kw => strContains (jsToLower a.description) kw))).length
  let defenseCount : ℚ :=
    (awards.filter (fun a => isDefenseAgency a.awardingAgency)).length
  let largeAwardThreshold := JsNum.mul avgAward (.num 3)
  let largeCount : ℚ :=
    (amounts.filter (fun a => JsNum.gtB (.num a) largeAwardThreshold)).length
  [("totalAwarded", .num totalAwarded),
   ("avgAward", avgAward),
   ("awardCount", .num len),
   ("maxAward", jsListMax amounts),
   ("minAward", jsListMin amounts),
   ("awardStdDev", .num (calculateStdDev amounts)),
   ("concentrationIndex", concentrationIndex),
   ("agencyConcentration", maxAgencyShare),
   ("yearOverYearGrowth", .num (calculateGrowthRate (groupByYear awards))),
   ("soleSourceRatio", JsNum.div (.num soleCount) (.num len)),
   ("highRiskCategoryRatio", JsNum.div (.num highRiskCount) (.num len)),
   ("defenseRatio", JsNum.div (.num defenseCount) (.num len)),
   ("largeAwardRatio", JsNum.div (.num largeCount) (.num len))]

/-- A healthcare provider record: the two flags `extractHealthcareFeatures`
reads. -/
structure Provider where
  excludedPreviously : Bool
  relatedPartyExcluded : Bool
deriving DecidableEq, Repr

/-- One billing row.  `amount` is stored after the `(b.amount || 0)`
coercion; `code`, `serviceType` and `patientId` store `''` for an absent
property. -/
structure BillingRecord where
  amount : ℚ
  code : String
  serviceType : String
  patientId : String
deriving DecidableEq, Repr

/-- One Open Payments row; `amount` is assumed present and finite. -/
structure Payment where
  amount : ℚ
  company : String
  ptype : String
deriving DecidableEq, Repr

/-- `parseInt` of a single character: its digit value, `NaN` otherwise. -/
def parseIntChar (c : Char) : JsNum :=
  if c.isDigit then JsNum.num ((c.toNat - 48 : ℕ) : ℚ) else JsNum.nan

/-- Whether the regular expression `/992X[1-5]/` (for the given fourth
character `x3`) matches anywhere in the string. -/
def matchesEm (s : String) (x3 : Char) : Bool :=
  let cs := s.toList
  List.any (List.range (cs.length + 1)) fun i =>
    match (cs.drop i).take 5 with
    | [a, b, c, d, e] =>
        a = '9' && b = '9' && c = '2' && d = x3 && ('1' ≤ e && e ≤ '5')
    | _ => false

/-- Helper `getCodeComplexity`: E&M complexity level from a billing code.
Note that on a match the source reads `codeStr[4]`, the fifth character of
the whole string (not of the match), and `parseInt` of a non-digit is
`NaN`. -/
def getCodeComplexity (code : String) : JsNum :=
  if code = "" then JsNum.num 1
  else if matchesEm code '0' || matchesEm code '1' then
    match code.toList.get? 4 with
    | some c => parseIntChar c
    | none => JsNum.nan
  else JsNum.num 3

/-- `extractHealthcareFeatures(provider, billingData, openPayments)`.
`billingData` and `openPayments` are `none` when the caller passes a
falsy value; note that an empty array is truthy in JavaScript, so
`some []` runs the corresponding block (and its unguarded divisions). -/
def extractHealthcareFeatures (provider : Provider)
    (billingData : Option (List BillingRecord))
    (openPayments : Option (List Payment)) : List (String × JsNum) :=
  let billingPart :=
    match billingData with
    | none => []
    | some bd =>
        let len : ℚ := bd.length
        let totalBilled := jsSumQ (bd.map BillingRecord.amount)
        let codeLevels := bd.map (fun b => getCodeComplexity b.code)
        let highCount : ℚ :=
          (codeLevels.filter (fun c => JsNum.geB c (.num 4))).length
        let distinctPatients : ℚ := (bd.map BillingRecord.patientId).eraseDups.length
        [("totalBilled", JsNum.num totalBilled),
         ("avgClaim", JsNum.div (.num totalBilled) (.num len)),
         ("claimCount", JsNum.num len),
         ("avgCodeComplexity", JsNum.div (jsSum codeLevels) (.num len)),
         ("highComplexityRatio", JsNum.div (.num highCount) (.num len)),
         ("uniqueServiceTypes",
           JsNum.num ((bd.map BillingRecord.serviceType).eraseDups.length : ℚ)),
         ("avgServicesPerPatient",
           JsNum.div (.num len)
             (.num (if distinctPatients = 0 then 1 else distinctPatients)))]
  let paymentsPart :=
    match openPayments with
    | none => []
    | some op =>
        let len : ℚ := op.length
        let totalPayments := jsSumQ (op.map Payment.amount)
        let byCompany := op.foldl (fun m p => upsertAdd m p.company p.amount) []
        let maxCompanyShare :=
          JsNum.div (jsListMax (byCompany.map Prod.snd)) (.num totalPayments)
        let consultingCount : ℚ :=
          (op.filter (fun p =>
            strContains (jsToLower p.ptype) "consulting" ||
              strContains (jsToLower p.ptype) "speaking")).length
        [("totalPharmaPayments", JsNum.num totalPayments),
         ("pharmaPaymentCount", JsNum.num len),
         ("uniquePharmaCompanies",
           JsNum.num ((op.map Payment.company).eraseDups.length : ℚ)),
         ("pharmaConcentration", JsNum.orElse maxCompanyShare (.num 0)),
         ("consultingPaymentRatio", JsNum.div (.num consultingCount) (.num len))]
  billingPart ++ paymentsPart ++
    [("hasExclusionHistory", JsNum.num (if provider.excludedPreviously then 1 else 0)),
     ("relatedPartyExcluded", JsNum.num (if provider.relatedPartyExcluded then 1 else 0))]

/-!
## Serving route (`src/app/api/ml/score/route.js`)
-/

/-- The route's high-risk keyword list (it swaps `emergency` for
`sole source` relative to the module extractor). -/
def routeHighRiskKeywords : List String :=
  ["consulting", "advisory", "professional services",
   "it services", "software", "support", "sole source"]

/-- The route's inline year-over-year growth: `1` with fewer than two
distinct years, otherwise last sorted year's total over the previous
year's (`|| 1` on the denominator). -/
def routeGrowthRate (byYear : List (String × ℚ)) : ℚ :=
  let years := stableSort strLeB (byYear.map Prod.fst)
  if 2 ≤ years.length then
    let lastYear := ((alookup byYear (years.getD (years.length - 1) "")).getD 0)
    let prevYearRaw := ((alookup byYear (years.getD (years.length - 2) "")).getD 0)
    let prevYear := if prevYearRaw = 0 then 1 else prevYearRaw
    lastYear / prevYear
  else 1

/-- The route's `extractFeatures(contracts)`: empty object for an empty
or missing collection, otherwise ten derived quantities.  Every division
below has a nonzero denominator on the nonempty branch, which claim C4's
amended theorem makes precise. -/
def routeExtractFeatures (contracts : List Award) : List (String × JsNum) :=
  if contracts.length = 0 then []
  else
    let amounts := contracts.map Award.awardAmount
    let len : ℚ := contracts.length
    let totalAwarded := jsSumQ amounts
    let avgAward := JsNum.div (.num totalAwarded) (.num len)
    let maxAgencyShare :=
      JsNum.div (jsListMax ((agencyCounts contracts).map Prod.snd)) (.num len)
    let growthRate := routeGrowthRate (groupByYear contracts)
    let highRiskCount : ℚ :=
      (contracts.filter (fun c =>
        routeHighRiskKeywords.any (fun kw => strContains (jsToLower c.description) kw))).length
    let defenseCount : ℚ :=
      (contracts.filter (fun c => isDefenseAgency c.awardingAgency)).length
    let healthcareCount : ℚ :=
      (contracts.filter (fun c =>
        strContains (jsToLower c.awardingAgency) "health" ||
          strContains (jsToLower c.description) "health" ||
          strContains (jsToLower c.description) "medical")).length
    let largeAwardThreshold := JsNum.mul avgAward (.num 3)
    let largeCount : ℚ :=
      (amounts.filter (fun a => JsNum.gtB (.num a) largeAwardThreshold)).length
    let soleCount : ℚ :=
      (contracts.filter (fun c =>
        strContains (jsToLower c.description) "sole source")).length
    [("totalAwarded", JsNum.num totalAwarded),
     ("avgAward", avgAward),
     ("awardCount", JsNum.num len),
     ("agencyConcentration", maxAgencyShare),
     ("yearOverYearGrowth", JsNum.num growthRate),
     ("highRiskCategoryRatio", JsNum.div (.num highRiskCount) (.num len)),
     ("defenseRatio", JsNum.div (.num defenseCount) (.num len)),
     ("healthcareRatio", JsNum.div (.num healthcareCount) (.num len)),
     ("largeAwardRatio", JsNum.div (.num largeCount) (.num len)),
     ("soleSourceRatio", JsNum.div (.num soleCount) (.num len))]

/-!
## The `FraudDetector` class (`src/ml/models/fraud-detector.js`)

Feature vectors consumed by the scorer are finite string-keyed numeric
maps (the spec's data-model invariant); keys are unique as JavaScript
object keys.  `Option` fields model properties that an untrained
detector's empty `thresholds` object simply does not have.
-/

/-- A feature vector: scorer input. -/
abbrev FeatureVec := List (String × ℚ)

/-- Per-feature summary statistics, as built by `calculateFeatureStats`. -/
structure FeatureStats where
  mean : ℚ
  std : ℚ
  min : ℚ
  max : ℚ
  median : ℚ
  p25 : ℚ
  p75 : ℚ
  p90 : ℚ
  p95 : ℚ
  count : ℕ
deriving DecidableEq, Repr

/-- One ranked fraud-pattern entry of `commonFactors`. -/
structure PatternEntry where
  indicator : String
  count : ℕ
  weight : ℚ
deriving DecidableEq, Repr

/-- Per-fraud-type aggregate.  The source also initializes an
`indicators: {}` sub-object that it never populates; it is omitted. -/
structure TypeAgg where
  count : ℕ
  totalAmount : ℚ
  avgAmount : ℚ
deriving DecidableEq, Repr

/-- Per-industry aggregate.  The never-populated `fraudTypes: {}`
sub-object is omitted. -/
structure IndustryAgg where
  count : ℕ
  totalAmount : ℚ
deriving DecidableEq, Repr

/-- The `fraudPatterns` bundle built by `learnFraudPatterns`. -/
structure FraudPatterns where
  byFraudType : List (String × TypeAgg)
  byIndustry : List (String × IndustryAgg)
  indicators : List (String × ℕ)
  commonFactors : List PatternEntry
deriving DecidableEq, Repr

/-- The flat threshold table.  Every field is optional: a freshly
constructed detector has `thresholds = {}`, and reading any property of
it yields `undefined`. -/
structure Thresholds where
  largeAwardMultiple : Option ℚ := none
  growthRateAnomaly : Option ℚ := none
  agencyConcentration : Option ℚ := none
  soleSourceRatio : Option ℚ := none
  billingZScore : Option ℚ := none
  highComplexityRatio : Option ℚ := none
  pharmaPaymentHigh : Option ℚ := none
  pharmaPaymentVeryHigh : Option ℚ := none
  lowRiskMax : Option ℚ := none
  mediumRiskMax : Option ℚ := none
  highRiskMin : Option ℚ := none
  zScoreThreshold : Option ℚ := none
  isolationThreshold : Option ℚ := none
deriving DecidableEq, Repr

/-- The empty `thresholds = {}` object of the constructor. -/
def emptyThresholds : Thresholds := {}

/-- The empty `fraudPatterns = {}` object of the constructor. -/
def emptyPatterns : FraudPatterns :=
  { byFraudType := [], byIndustry := [], indicators := [], commonFactors := [] }

/-- The mutable state of a `FraudDetector` instance. -/
structure FraudDetector where
  trained : Bool
  featureStats : List (String × FeatureStats)
  fraudPatterns : FraudPatterns
  thresholds : Thresholds
  modelVersion : String
deriving DecidableEq, Repr

/-- `new FraudDetector()`. -/
def freshDetector : FraudDetector :=
  { trained := false, featureStats := [], fraudPatterns := emptyPatterns,
    thresholds := emptyThresholds, modelVersion := "1.0.0" }

/-- `optimizeThresholds`: the fixed default threshold table (its two
arguments are never read). -/
def defaultThresholds : Thresholds :=
  { largeAwardMultiple := some 3,
    growthRateAnomaly := some 2,
    agencyConcentration := some (4 / 5),
    soleSourceRatio := some (1 / 2),
    billingZScore := some 2,
    highComplexityRatio := some (2 / 5),
    pharmaPaymentHigh := some 50000,
    pharmaPaymentVeryHigh := some 100000,
    lowRiskMax := some 25,
    mediumRiskMax := some 50,
    highRiskMin := some 50,
    zScoreThreshold := some (5 / 2),
    isolationThreshold := some (3 / 5) }

/-- One explainable risk factor.  The formatted `description` string is
presentation-only and is not modelled; `type` is stored in `ftype`. -/
structure Factor where
  ftype : String
  contribution : ℤ
  severity : String
deriving DecidableEq, Repr

/-- A score result of the detector's scorers. -/
structure ScoreResult where
  score : ℤ
  riskLevel : String
  factors : List Factor
  confidence : ℚ
deriving DecidableEq, Repr

/-- `getRiskLevel(score)`: both comparisons read possibly-absent
threshold properties. -/
def getRiskLevel (st : FraudDetector) (score : ℤ) : String :=
  if geOpt (score : ℚ) st.thresholds.highRiskMin then "High"
  else if geOpt (score : ℚ) st.thresholds.lowRiskMax then "Medium"
  else "Low"

/-- `calculateConfidence(features)`.  The key count is the vector's
length: values are numeric (never `null`/`undefined`) and keys unique. -/
def calculateConfidence (st : FraudDetector) (features : FeatureVec) : ℚ :=
  let featureCount : ℚ := features.length
  let dataCompleteness := min (featureCount / 10) 1
  let baseConfidence : ℚ := if st.trained then 17 / 20 else 7 / 10
  jsRound2 (baseConfidence * dataCompleteness)

/-- One iteration of the `detectAnomalies` loop: skip features without
profile statistics, divide by `stats.std || 1`, and emit a factor when
`|z|` exceeds the (possibly absent) `zScoreThreshold`. -/
def anomalyStep (st : FraudDetector) (acc : ℤ × List Factor)
    (p : String × ℚ) : ℤ × List Factor :=
  match alookup st.featureStats p.1 with
  | none => acc
  | some stats =>
      let z := (p.2 - stats.mean) / (if stats.std = 0 then 1 else stats.std)
      if optGt (some |z|) st.thresholds.zScoreThreshold then
        let contribution := min (jsRound (|z| * 5)) 15
        (acc.1 + contribution,
         acc.2 ++ [{ ftype := "STATISTICAL_ANOMALY", contribution := contribution,
                     severity := if 3 < |z| then "high" else "medium" }])
      else acc

/-- `detectAnomalies(features, type)` (the `type` argument is unused). -/
def detectAnomalies (st : FraudDetector) (features : FeatureVec) :
    ℤ × List Factor :=
  features.foldl (anomalyStep st) (0, [])

/-- Whitespace characters recognized for the `/\s+/g` replacement. -/
def isWsChar (c : Char) : Bool :=
  c = ' ' || c = '\t' || c = '\n' || c = '\r'

/-- Collapse every whitespace run into a single underscore (the Boolean
tracks whether the previous character was whitespace). -/
def collapseWsAux : Bool → List Char → List Char
  | _, [] => []
  | prevWs, c :: rest =>
      if isWsChar c then
        (if prevWs then [] else ['_']) ++ collapseWsAux true rest
      else c :: collapseWsAux false rest

/-- `indicator.toLowerCase().replace(/\s+/g, '_')`. -/
def normalizeIndicator (s : String) : String :=
  String.mk (collapseWsAux false (jsToLower s).toList)

/-- One iteration of the `matchFraudPatterns` loop. -/
def patternStep (features : FeatureVec) (acc : ℤ × List Factor)
    (factor : PatternEntry) : ℤ × List Factor :=
  let fv := alookup features (normalizeIndicator factor.indicator)
  if optTruthy fv && optGt fv (some 0) then
    let contribution := jsRound (factor.weight * 20)
    (acc.1 + contribution,
     acc.2 ++ [{ ftype := "FRAUD_PATTERN_MATCH", contribution := contribution,
                 severity := if 3 / 10 < factor.weight then "high" else "medium" }])
  else acc

/-- `matchFraudPatterns(features, type)` (the `type` argument is unused). -/
def matchFraudPatterns (st : FraudDetector) (features : FeatureVec) :
    ℤ × List Factor :=
  st.fraudPatterns.commonFactors.foldl (patternStep features) (0, [])

/-- `applyContractorRules(features)`: the source returns a constant
zero contribution. -/
def applyContractorRules (_st : FraudDetector) (_features : FeatureVec) :
    ℤ × List Factor :=
  (0, [])

/-- One `if (features.X > θ) do score += c; factors.push(...)` block of the
default contractor scorer, with its literal threshold `θ`, contribution
function, factor tag and severity rule. -/
def ruleBranch (f : FeatureVec) (key : String) (θ : ℚ) (contrib : ℚ → ℤ)
    (ft : String) (sev : ℤ → String) : ℤ × List Factor :=
  match alookup f key with
  | some v =>
      if θ < v then
        (contrib v,
         [{ ftype := ft, contribution := contrib v, severity := sev (contrib v) }])
      else (0, [])
  | none => (0, [])

/-- `defaultContractorScoring(features)`: the untrained rule table, with
hard-coded thresholds and a fixed `0.7` confidence. -/
def defaultContractorScoring (st : FraudDetector) (f : FeatureVec) : ScoreResult :=
  let b1 := ruleBranch f "largeAwardRatio" (3 / 10) (fun v => jsRound (v * 30))
    "LARGE_AWARD_CONCENTRATION" (fun c => if 15 < c then "high" else "medium")
  let b2 := ruleBranch f "agencyConcentration" (4 / 5) (fun _ => 10)
    "AGENCY_CONCENTRATION" (fun _ => "low")
  let b3 := ruleBranch f "soleSourceRatio" (1 / 2) (fun v => jsRound (v * 25))
    "HIGH_SOLE_SOURCE" (fun _ => "medium")
  let b4 := ruleBranch f "yearOverYearGrowth" 2
    (fun v => min (jsRound ((v - 1) * 15)) 25)
    "RAPID_GROWTH" (fun c => if 15 < c then "high" else "medium")
  let b5 := ruleBranch f "highRiskCategoryRatio" (3 / 10) (fun v => jsRound (v * 20))
    "HIGH_RISK_CATEGORY" (fun _ => "low")
  let b6 := ruleBranch f "defenseRatio" (7 / 10) (fun _ => 5)
    "DEFENSE_CONCENTRATION" (fun _ => "low")
  let score := min (b1.1 + b2.1 + b3.1 + b4.1 + b5.1 + b6.1) 100
  { score := score,
    riskLevel := getRiskLevel st score,
    factors := b1.2 ++ b2.2 ++ b3.2 ++ b4.2 ++ b5.2 ++ b6.2,
    confidence := 7 / 10 }

/-- `scoreContractor(features)`: default path when untrained with empty
statistics, ensemble of the three strategies otherwise, with factors
stably sorted by descending contribution. -/
def scoreContractor (st : FraudDetector) (f : FeatureVec) : ScoreResult :=
  if st.trained = false ∧ st.featureStats = [] then defaultContractorScoring st f
  else
    let a := detectAnomalies st f
    let p := matchFraudPatterns st f
    let r := applyContractorRules st f
    let score := min (a.1 + p.1 + r.1) 100
    { score := score,
      riskLevel := getRiskLevel st score,
      factors := stableSort (fun x y => decide (y.contribution ≤ x.contribution))
        (a.2 ++ p.2 ++ r.2),
      confidence := calculateConfidence st f }

/-- `scoreHealthcareProvider(features)`.  The first two gates compare
against possibly-absent threshold-table properties; the rest use literal
thresholds; factors are not sorted here. -/
def scoreHealthcareProvider (st : FraudDetector) (f : FeatureVec) : ScoreResult :=
  let b1 : ℤ × List Factor :=
    match alookup f "highComplexityRatio" with
    | some v =>
        if optGt (some v) st.thresholds.highComplexityRatio then
          let c := jsRound ((v - 1 / 5) * 40)
          (c, [{ ftype := "HIGH_COMPLEXITY_BILLING", contribution := c,
                 severity := if 15 < c then "high" else "medium" }])
        else ((0 : ℤ), ([] : List Factor))
    | none => (0, [])
  let b2 : ℤ × List Factor :=
    match alookup f "totalPharmaPayments" with
    | some v =>
        if optGt (some v) st.thresholds.pharmaPaymentHigh then
          let c : ℤ :=
            if optGt (some v) st.thresholds.pharmaPaymentVeryHigh then 25 else 15
          (c, [{ ftype := "HIGH_PHARMA_PAYMENTS", contribution := c,
                 severity := if 15 < c then "high" else "medium" }])
        else ((0 : ℤ), ([] : List Factor))
    | none => (0, [])
  let b3 := ruleBranch f "pharmaConcentration" (7 / 10) (fun _ => 10)
    "PHARMA_CONCENTRATION" (fun _ => "medium")
  let b4 : ℤ × List Factor :=
    if optTruthy (alookup f "hasExclusionHistory") then
      (30, [{ ftype := "PRIOR_EXCLUSION", contribution := 30,
              severity := "high" }])
    else (0, [])
  let b5 : ℤ × List Factor :=
    if optTruthy (alookup f "relatedPartyExcluded") then
      (20, [{ ftype := "RELATED_PARTY_EXCLUDED", contribution := 20,
              severity := "high" }])
    else (0, [])
  let b6 := ruleBranch f "avgServicesPerPatient" 10 (fun _ => 15)
    "HIGH_SERVICE_VOLUME" (fun _ => "medium")
  let score := min (b1.1 + b2.1 + b3.1 + b4.1 + b5.1 + b6.1) 100
  { score := score,
    riskLevel := getRiskLevel st score,
    factors := b1.2 ++ b2.2 ++ b3.2 ++ b4.2 ++ b5.2 ++ b6.2,
    confidence := calculateConfidence st f }

/-!
## Training and persistence
-/

/-- One training record: `calculateFeatureStats` only reads its optional
`features` object (all of whose values are numeric). -/
structure TrainRecord where
  features : Option FeatureVec
deriving DecidableEq, Repr

/-- One labelled fraud case.  `industry` stores `''` for an absent
property (the source substitutes `'unknown'`); `amount` is stored after
the `(fc.amount || 0)` coercion. -/
structure FraudCase where
  fraud_type : List String
  industry : String
  indicators : List String
  amount : ℚ
deriving DecidableEq, Repr

/-- Append a value to a key's sample list, creating the key at the end on
first sight (`featureValues[key].push(value)`). -/
def appendVal : List (String × List ℚ) → String → ℚ → List (String × List ℚ)
  | [], k, v => [(k, [v])]
  | p :: rest, k, v =>
      if p.1 == k then (p.1, p.2 ++ [v]) :: rest else p :: appendVal rest k v

/-- `Math.floor(n * q)` as a list index. -/
def floorIdx (n : ℕ) (q : ℚ) : ℕ := (Rat.floor ((n : ℚ) * q)).toNat

/-- Summary statistics of one feature's sample (`values` is nonempty
whenever this is reached). -/
def statsOfValues (values : List ℚ) : FeatureStats :=
  let n := values.length
  let nq : ℚ := n
  let mean := jsSumQ values / nq
  let variance := jsSumQ (values.map (fun v => (v - mean) ^ 2)) / nq
  let sorted := stableSort (fun a b => decide (a ≤ b)) values
  { mean := mean,
    std := ratSqrt variance,
    min := sorted.getD 0 0,
    max := sorted.getD (n - 1) 0,
    median := sorted.getD (n / 2) 0,
    p25 := sorted.getD (floorIdx n (1 / 4)) 0,
    p75 := sorted.getD (floorIdx n (3 / 4)) 0,
    p90 := sorted.getD (floorIdx n (9 / 10)) 0,
    p95 := sorted.getD (floorIdx n (19 / 20)) 0,
    count := n }

/-- `calculateFeatureStats(data)`: collect every numeric feature value by
key (in first-seen order), then summarize each sample. -/
def calculateFeatureStats (data : List TrainRecord) : List (String × FeatureStats) :=
  let featureValues :=
    data.foldl
      (fun m r =>
        match r.features with
        | some fs => fs.foldl (fun m2 p => appendVal m2 p.1 p.2) m
        | none => m)
      []
  featureValues.map (fun p => (p.1, statsOfValues p.2))

/-- Add one case to the per-fraud-type aggregates. -/
def upsertTypeAgg : List (String × TypeAgg) → String → ℚ → List (String × TypeAgg)
  | [], k, amt => [(k, { count := 1, totalAmount := amt, avgAmount := 0 })]
  | p :: rest, k, amt =>
      if p.1 == k then
        (p.1, { p.2 with count := p.2.count + 1, totalAmount := p.2.totalAmount + amt }) :: rest
      else p :: upsertTypeAgg rest k amt

/-- Add one case to the per-industry aggregates. -/
def upsertIndustryAgg : List (String × IndustryAgg) → String → ℚ →
    List (String × IndustryAgg)
  | [], k, amt => [(k, { count := 1, totalAmount := amt })]
  | p :: rest, k, amt =>
      if p.1 == k then
        (p.1, { p.2 with count := p.2.count + 1, totalAmount := p.2.totalAmount + amt }) :: rest
      else p :: upsertIndustryAgg rest k amt

/-- Tally one indicator phrase. -/
def upsertCount : List (String × ℕ) → String → List (String × ℕ)
  | [], k => [(k, 1)]
  | p :: rest, k =>
      if p.1 == k then (p.1, p.2 + 1) :: rest else p :: upsertCount rest k

/-- `learnFraudPatterns(knownFraudCases)`: aggregate by fraud type and
industry, tally indicators, then rank the top 20 indicators by count
(stable, first-seen order on ties) with `weight = count / total cases`. -/
def learnFraudPatterns (cases : List FraudCase) : FraudPatterns :=
  let step := fun (acc : List (String × TypeAgg) × List (String × IndustryAgg) ×
      List (String × ℕ)) (fc : FraudCase) =>
    let byType := fc.fraud_type.foldl (fun m ft => upsertTypeAgg m ft fc.amount) acc.1
    let industry := if fc.industry = "" then "unknown" else fc.industry
    let byInd := upsertIndustryAgg acc.2.1 industry fc.amount
    let inds := fc.indicators.foldl (fun m ind => upsertCount m ind) acc.2.2
    (byType, byInd, inds)
  let folded := cases.foldl step ([], [], [])
  let byFraudType := folded.1.map (fun p =>
    (p.1, { p.2 with avgAmount := p.2.totalAmount / (p.2.count : ℚ) }))
  let ranked := stableSort (fun a b => decide (b.2 ≤ a.2)) folded.2.2
  { byFraudType := byFraudType,
    byIndustry := folded.2.1,
    indicators := folded.2.2,
    commonFactors := (ranked.take 20).map (fun p =>
      { indicator := p.1, count := p.2,
        weight := (p.2 : ℚ) / (cases.length : ℚ) }) }

/-- `train(trainingData, knownFraudCases)`: rebuild the statistics,
patterns and thresholds and set the `trained` flag. -/
def FraudDetector.train (st : FraudDetector) (trainingData : List TrainRecord)
    (cases : List FraudCase) : FraudDetector :=
  { st with
    featureStats := calculateFeatureStats trainingData,
    fraudPatterns := learnFraudPatterns cases,
    thresholds := defaultThresholds,
    trained := true }

/-- The serialized model artifact (`modelData` in `save`).  The JSON
round trip of this finite numeric data is faithful, so serialization is
the identity on the record. -/
structure ModelData where
  version : String
  trained : Bool
  featureStats : List (String × FeatureStats)
  fraudPatterns : FraudPatterns
  thresholds : Thresholds
  savedAt : String
deriving DecidableEq, Repr

/-- `save(filepath)`: the artifact written to disk, timestamped `now`. -/
def FraudDetector.save (st : FraudDetector) (now : String) : ModelData :=
  { version := st.modelVersion, trained := st.trained,
    featureStats := st.featureStats, fraudPatterns := st.fraudPatterns,
    thresholds := st.thresholds, savedAt := now }

/-- Assignment of a parsed artifact's fields onto the instance, the body
of `load` after the parse succeeds. -/
def loadFromData (st : FraudDetector) (d : ModelData) : FraudDetector :=
  { st with
    modelVersion := d.version, trained := d.trained,
    featureStats := d.featureStats, fraudPatterns := d.fraudPatterns,
    thresholds := d.thresholds }

/-- A model file on disk: `none` is a missing file, `some none` a present
but unparseable one, `some (some d)` one that parses to `d`. -/
abbrev ArtifactFile := Option (Option ModelData)

/-- `fs.readFile` followed by `JSON.parse`: the two failure modes are a
read error and a parse error. -/
def readArtifact : ArtifactFile → Except String ModelData
  | none => Except.error "ENOENT: no such file or directory"
  | some none => Except.error "SyntaxError: Unexpected token in JSON"
  | some (some d) => Except.ok d

/-- `FraudDetector.load(filepath)`: no `try`/`catch`, so a read or parse
failure propagates to the caller. -/
def FraudDetector.loadFile (st : FraudDetector) (file : ArtifactFile) :
    Except String FraudDetector :=
  (readArtifact file).map (loadFromData st)

/-- The route's `loadModel()`: `try` the read and parse, `catch` anything
and return `null`. -/
def routeLoadModel (file : ArtifactFile) : Option ModelData :=
  (readArtifact file).toOption

/-- A score result of the route's scorer. -/
structure RouteScoreResult where
  score : ℤ
  riskLevel : String
  factors : List Factor
  modelVersion : String
  confidence : ℚ
deriving DecidableEq, Repr

/-- The route's built-in fallback threshold object (used when no model is
loaded); it carries only seven of the table's properties. -/
def routeDefaultThresholds : Thresholds :=
  { largeAwardMultiple := some 3,
    growthRateAnomaly := some 2,
    agencyConcentration := some (4 / 5),
    soleSourceRatio := some (1 / 2),
    lowRiskMax := some 25,
    mediumRiskMax := some 50,
    highRiskMin := some 50 }

/-- The route scorer's body once its threshold table, pattern list,
`trained` flag and version string have been resolved from the optional
model. -/
def routeScoreWith (f : FeatureVec) (thresholds : Thresholds)
    (commonFactors : List PatternEntry) (trained : Bool)
    (version : String) : RouteScoreResult :=
  let b1 := ruleBranch f "largeAwardRatio" (3 / 10) (fun v => jsRound (v * 30))
    "LARGE_AWARD_CONCENTRATION" (fun c => if 15 < c then "high" else "medium")
  let b2 : ℤ × List Factor :=
    if optGt (alookup f "agencyConcentration") thresholds.agencyConcentration then
      (10, [{ ftype := "AGENCY_CONCENTRATION", contribution := 10, severity := "low" }])
    else (0, [])
  let b3 : ℤ × List Factor :=
    match alookup f "soleSourceRatio" with
    | some v =>
        if optGt (some v) thresholds.soleSourceRatio then
          let c := jsRound (v * 25)
          (c, [{ ftype := "HIGH_SOLE_SOURCE", contribution := c, severity := "medium" }])
        else (0, [])
    | none => (0, [])
  let b4 : ℤ × List Factor :=
    match alookup f "yearOverYearGrowth" with
    | some v =>
        if optGt (some v) thresholds.growthRateAnomaly then
          let c := min (jsRound ((v - 1) * 15)) 25
          (c, [{ ftype := "RAPID_GROWTH", contribution := c,
                 severity := if 15 < c then "high" else "medium" }])
        else (0, [])
    | none => (0, [])
  let b5 := ruleBranch f "highRiskCategoryRatio" (3 / 10) (fun v => jsRound (v * 20))
    "HIGH_RISK_CATEGORY" (fun _ => "medium")
  let b6 := ruleBranch f "defenseRatio" (7 / 10) (fun _ => 5)
    "DEFENSE_CONCENTRATION" (fun _ => "low")
  let b7 := ruleBranch f "healthcareRatio" (1 / 2) (fun _ => 10)
    "HEALTHCARE_CONCENTRATION" (fun _ => "medium")
  let pat :=
    (commonFactors.take 5).foldl
      (fun (acc : ℤ × List Factor) factor =>
        let fv := alookup f (normalizeIndicator factor.indicator)
        if optTruthy fv && optGt fv (some (1 / 2)) then
          let c := jsRound (factor.weight * 15)
          (acc.1 + c,
           acc.2 ++ [{ ftype := "PATTERN_MATCH", contribution := c,
                       severity := if 3 / 10 < factor.weight then "high" else "medium" }])
        else acc)
      (0, [])
  let score := min (b1.1 + b2.1 + b3.1 + b4.1 + b5.1 + b6.1 + b7.1 + pat.1) 100
  let riskLevel :=
    if geOpt (score : ℚ) thresholds.highRiskMin then "High"
    else if geOpt (score : ℚ) thresholds.lowRiskMax then "Medium"
    else "Low"
  { score := score,
    riskLevel := riskLevel,
    factors := stableSort (fun x y => decide (y.contribution ≤ x.contribution))
      (b1.2 ++ b2.2 ++ b3.2 ++ b4.2 ++ b5.2 ++ b6.2 ++ b7.2 ++ pat.2),
    modelVersion := version,
    confidence := if trained then 17 / 20 else 7 / 10 }

/-- The route's `scoreContractor(features, model)`: resolve
`model?.thresholds || defaults`, `model?.fraudPatterns?.commonFactors`,
`model?.trained` and `model?.version || 'default'`, then score. -/
def routeScoreContractor (f : FeatureVec) (model : Option ModelData) :
    RouteScoreResult :=
  match model with
  | some m => routeScoreWith f m.thresholds m.fraudPatterns.commonFactors
      m.trained m.version
  | none => routeScoreWith f routeDefaultThresholds [] false "default"

/-!
## Claims
-/

/-- The healthcare scorer's risk level is `getRiskLevel` of its score. -/
theorem scoreHealthcareProvider_riskLevel (st : FraudDetector) (f : FeatureVec) :
    (scoreHealthcareProvider st f).riskLevel =
      getRiskLevel st (scoreHealthcareProvider st f).score := rfl

/-- Helper for C10: with the constructor's empty threshold table both
`getRiskLevel` comparisons read an absent property and fail. -/
theorem getRiskLevel_fresh (s : ℤ) : getRiskLevel freshDetector s = "Low" := by
  simp [getRiskLevel, freshDetector, emptyThresholds, geOpt]

/-- C10: a freshly constructed, never-trained and never-loaded
`FraudDetector` has an empty thresholds mapping, `getRiskLevel` returns
`Low` for every score, and `scoreHealthcareProvider` reports `Low` for
every feature vector — including one scoring 50 from the two
exclusion-history factors alone. -/
theorem c10_fresh_detector_always_low :
    freshDetector.thresholds = emptyThresholds ∧
    (∀ s : ℤ, getRiskLevel freshDetector s = "Low") ∧
    (∀ f : FeatureVec,
      (scoreHealthcareProvider freshDetector f).riskLevel = "Low") ∧
    (scoreHealthcareProvider freshDetector
      [("hasExclusionHistory", 1), ("relatedPartyExcluded", 1)]).score = 50 := by
  refine ⟨rfl, getRiskLevel_fresh, ?_, ?_⟩
  · intro f
    rw [scoreHealthcareProvider_riskLevel]
    exact getRiskLevel_fresh _
  · norm_num +decide [scoreHealthcareProvider, freshDetector, emptyThresholds,
      emptyPatterns, alookup, ruleBranch, optGt, optTruthy, getRiskLevel, geOpt,
      calculateConfidence, jsRound2, jsRound, ratFloor_eq_floor]

/-- C2 counterexample: the module-level contractor extractor applied to an
empty record collection does not return an empty feature vector. -/
theorem c2_counterexample :
    extractContractorFeatures [] ≠ ([] : List (String × JsNum)) := by
  simp [extractContractorFeatures]

/-- C2 amended: the route-level `extractFeatures` returns the empty vector
on an empty collection, while the module-level extractors return, without
raising, a vector whose keys are all present (the contractor kind yields
its full 13 entries, the healthcare kind its two flag entries even with no
billing or payment data). -/
theorem c2_empty_collection :
    routeExtractFeatures [] = [] ∧
    (extractContractorFeatures []).map Prod.fst =
      ["totalAwarded", "avgAward", "awardCount", "maxAward", "minAward",
       "awardStdDev", "concentrationIndex", "agencyConcentration",
       "yearOverYearGrowth", "soleSourceRatio", "highRiskCategoryRatio",
       "defenseRatio", "largeAwardRatio"] ∧
    (∀ p : Provider, (extractHealthcareFeatures p none none).map Prod.fst =
      ["hasExclusionHistory", "relatedPartyExcluded"]) := by
  refine ⟨rfl, rfl, fun p => rfl⟩

/-- C9: training then saving then loading reproduces the in-memory
model's profile, patterns and thresholds exactly (timestamps excepted);
in this embedding the JSON round trip of the finite numeric artifact is
the identity. -/
theorem c9_save_load_roundtrip :
    ∀ (st st2 : FraudDetector) (td : List TrainRecord)
      (cases : List FraudCase) (now : String),
      FraudDetector.loadFile st2 (some (some ((st.train td cases).save now))) =
        Except.ok (loadFromData st2 ((st.train td cases).save now)) ∧
      (loadFromData st2 ((st.train td cases).save now)).featureStats =
        (st.train td cases).featureStats ∧
      (loadFromData st2 ((st.train td cases).save now)).fraudPatterns =
        (st.train td cases).fraudPatterns ∧
      (loadFromData st2 ((st.train td cases).save now)).thresholds =
        (st.train td cases).thresholds := by
  intro st st2 td cases now
  exact ⟨rfl, rfl, rfl, rfl⟩

/-- C8 counterexample: `FraudDetector.load` has no `try`/`catch`, so a
missing file propagates an error to the caller instead of falling back. -/
theorem c8_counterexample :
    FraudDetector.loadFile freshDetector none =
      Except.error "ENOENT: no such file or directory" ∧
    FraudDetector.loadFile freshDetector (some none) =
      Except.error "SyntaxError: Unexpected token in JSON" := ⟨rfl, rfl⟩

/-- C8 amended: the serving route's `loadModel` never raises on a missing
or malformed artifact — it yields no model, and scoring then runs with the
route's built-in default thresholds, no patterns, the untrained `0.70`
confidence and version `default`.  `FraudDetector.load` itself propagates
the failure (see the counterexample). -/
theorem c8_route_loader_fallback :
    ∀ file : ArtifactFile,
      (∀ d, readArtifact file ≠ Except.ok d) →
      routeLoadModel file = none ∧
      (∀ f : FeatureVec,
        routeScoreContractor f (routeLoadModel file) =
          routeScoreWith f routeDefaultThresholds [] false "default") := by
  intro file herr
  have hnone : routeLoadModel file = none := by
    match file with
    | none => rfl
    | some none => rfl
    | some (some d) => exact absurd rfl (herr d)
  refine ⟨hnone, fun f => ?_⟩
  rw [hnone]
  rfl


/-- C8 witness: the fallback theorem applied to a missing file. -/
theorem c8_witness :
    routeLoadModel none = none ∧
    (∀ f : FeatureVec,
      routeScoreContractor f (routeLoadModel none) =
        routeScoreWith f routeDefaultThresholds [] false "default") :=
  c8_route_loader_fallback none (fun d h => by simp [readArtifact] at h)

/-- The distinct award years in the sorted order both growth computations
use. -/
def sortedYears (byYear : List (String × ℚ)) : List String :=
  stableSort strLeB (byYear.map Prod.fst)

/-- The award total of the `i`-th sorted year. -/
def yearTotal (byYear : List (String × ℚ)) (i : ℕ) : ℚ :=
  (alookup byYear ((sortedYears byYear).getD i "")).getD 0

/-- A single-year award history used to refute claim C3. -/
def c3Award : Award :=
  { awardAmount := 100, startDate := "2023-01-01",
    awardingAgency := "X", description := "" }

/-- C3 counterexample: with a single distinct calendar year the
module-level extractor's `yearOverYearGrowth` is `0`, not the claimed
no-growth default `1.0`. -/
theorem c3_counterexample :
    alookup (extractContractorFeatures [c3Award]) "yearOverYearGrowth" =
      some (JsNum.num 0) ∧ JsNum.num 0 ≠ JsNum.num 1 := by
  constructor
  · norm_num +decide [extractContractorFeatures, c3Award, alookup, jsListMax,
      jsListMin, jsSumQ, JsNum.div, JsNum.mul, JsNum.orElse, JsNum.truthy,
      agencyCounts, agencyKey, upsertAdd, calculateStdDev, groupByYear,
      calculateGrowthRate, stableSort, strLeB, insertLe, ratSqrt_zero]
  · simp

/-- C3 amended: both extractors expose their growth helper's value; with
fewer than two distinct years the module-level `calculateGrowthRate`
returns `0` while the route-level growth defaults to `1`; with two or
more years both return the last sorted year's total divided by the
previous year's total (with `1` substituted for a zero previous total). -/
theorem c3_growth_rate :
    ∀ awards : List Award,
      alookup (extractContractorFeatures awards) "yearOverYearGrowth" =
        some (JsNum.num (calculateGrowthRate (groupByYear awards))) ∧
      (awards ≠ [] →
        alookup (routeExtractFeatures awards) "yearOverYearGrowth" =
          some (JsNum.num (routeGrowthRate (groupByYear awards)))) ∧
      ((sortedYears (groupByYear awards)).length < 2 →
        calculateGrowthRate (groupByYear awards) = 0 ∧
        routeGrowthRate (groupByYear awards) = 1) ∧
      (2 ≤ (sortedYears (groupByYear awards)).length →
        calculateGrowthRate (groupByYear awards) =
          yearTotal (groupByYear awards)
              ((sortedYears (groupByYear awards)).length - 1) /
            (if yearTotal (groupByYear awards)
                ((sortedYears (groupByYear awards)).length - 2) = 0 then 1
             else yearTotal (groupByYear awards)
                ((sortedYears (groupByYear awards)).length - 2)) ∧
        routeGrowthRate (groupByYear awards) =
          yearTotal (groupByYear awards)
              ((sortedYears (groupByYear awards)).length - 1) /
            (if yearTotal (groupByYear awards)
                ((sortedYears (groupByYear awards)).length - 2) = 0 then 1
             else yearTotal (groupByYear awards)
                ((sortedYears (groupByYear awards)).length - 2))) := by
  intro awards
  refine ⟨?_, ?_, ?_, ?_⟩
  · simp +decide [extractContractorFeatures, alookup]
  · intro hne
    have hlen : awards.length ≠ 0 := by
      simpa [List.length_eq_zero] using hne
    simp +decide [routeExtractFeatures, alookup, hlen]
  · intro hlt
    simp only [sortedYears] at hlt
    constructor
    · simp only [calculateGrowthRate]
      rw [if_pos hlt]
    · simp only [routeGrowthRate]
      rw [if_neg (by omega)]
  · intro hge
    simp only [sortedYears] at hge
    constructor
    · simp only [calculateGrowthRate, yearTotal, sortedYears]
      rw [if_neg (by omega)]
    · simp only [routeGrowthRate, yearTotal, sortedYears]
      rw [if_pos hge]

/-- C3 witness: the amended theorem applied to the one-year history. -/
theorem c3_witness :
    calculateGrowthRate (groupByYear [c3Award]) = 0 ∧
    routeGrowthRate (groupByYear [c3Award]) = 1 :=
  (c3_growth_rate [c3Award]).2.2.1 (by decide)

/-- A successful association-list lookup returns one of the stored
values. -/
theorem alookup_mem_values {α : Type} {l : List (String × α)} {k : String}
    {v : α} (h : alookup l k = some v) : v ∈ l.map Prod.snd := by
  induction l with
  | nil => simp [alookup] at h
  | cons p rest ih =>
      by_cases hk : p.1 == k
      · simp [alookup, hk] at h
        simp [h.symm]
      · simp [alookup, hk] at h
        simp [ih h]

/-- Upserting into an accumulator object never empties it. -/
theorem upsertAdd_ne_nil (l : List (String × ℚ)) (k : String) (v : ℚ) :
    upsertAdd l k v ≠ [] := by
  cases l with
  | nil => simp [upsertAdd]
  | cons p rest =>
      by_cases hk : p.1 == k <;> simp [upsertAdd, hk]

/-- The agency-count object of a nonempty award list is nonempty. -/
theorem agencyCounts_ne_nil (c : Award) (rest : List Award) :
    agencyCounts (c :: rest) ≠ [] := by
  have step : ∀ (l : List Award) (m : List (String × ℚ)), m ≠ [] →
      l.foldl (fun m a => upsertAdd m (agencyKey a) 1) m ≠ [] := by
    intro l
    induction l with
    | nil => intro m hm; simpa using hm
    | cons a as ih =>
        intro m _
        exact ih (upsertAdd m (agencyKey a) 1) (upsertAdd_ne_nil m (agencyKey a) 1)
  simpa [agencyCounts] using
    step rest (upsertAdd [] (agencyKey c) 1) (upsertAdd_ne_nil [] (agencyKey c) 1)

/-- A division of finite values with a nonzero denominator is finite. -/
theorem isFinite_div_num {a b : ℚ} (hb : b ≠ 0) :
    (JsNum.div (JsNum.num a) (JsNum.num b)).isFinite = true := by
  simp [JsNum.div, hb, JsNum.isFinite]

/-- `Math.max` of a nonempty finite spread divided by a nonzero finite
value is finite. -/
theorem isFinite_div_listMax {l : List ℚ} {b : ℚ} (hl : l ≠ []) (hb : b ≠ 0) :
    (JsNum.div (jsListMax l) (JsNum.num b)).isFinite = true := by
  cases l with
  | nil => exact absurd rfl hl
  | cons a rest => exact isFinite_div_num hb

/-- C4 counterexample: the module-level contractor extractor emits
non-finite values — `-Infinity` for `maxAward` on an empty collection,
and `NaN` for `concentrationIndex` when the total awarded is zero. -/
theorem c4_counterexample :
    alookup (extractContractorFeatures []) "maxAward" = some JsNum.negInf ∧
    alookup (extractContractorFeatures
        [{ awardAmount := 0, startDate := "", awardingAgency := "",
           description := "" }]) "concentrationIndex" = some JsNum.nan ∧
    JsNum.negInf.isFinite = false ∧ JsNum.nan.isFinite = false := by
  refine ⟨?_, ?_, rfl, rfl⟩ <;>
    norm_num +decide [extractContractorFeatures, alookup, jsListMax, jsListMin,
      jsSumQ, JsNum.div, JsNum.mul, JsNum.add, JsNum.orElse, JsNum.truthy,
      agencyCounts, agencyKey, upsertAdd, calculateStdDev, groupByYear,
      calculateGrowthRate, stableSort, strLeB, insertLe, ratSqrt_zero]

/-- C4 amended: every value the route-level `extractFeatures` returns is
finite for every record collection (its empty-collection guard and its
guarded denominators rule out `NaN` and `±∞`); the module-level
extractors do not satisfy this (see the counterexample). -/
theorem c4_route_extractor_finite :
    ∀ (contracts : List Award) (k : String) (v : JsNum),
      alookup (routeExtractFeatures contracts) k = some v →
      v.isFinite = true := by
  intro contracts k v h
  match contracts with
  | [] => simp [routeExtractFeatures, alookup] at h
  | c :: rest =>
      have hlen : ((c :: rest : List Award).length : ℚ) ≠ 0 := by
        have h1 : (c :: rest : List Award).length = rest.length + 1 := rfl
        rw [h1]
        exact_mod_cast Nat.succ_ne_zero rest.length
      rw [routeExtractFeatures] at h
      rw [if_neg (by simp)] at h
      have hmem := alookup_mem_values h
      simp only [List.map, List.mem_cons, List.not_mem_nil, or_false] at hmem
      rcases hmem with h1 | h1 | h1 | h1 | h1 | h1 | h1 | h1 | h1 | h1 <;>
        rw [h1]
      · rfl
      · exact isFinite_div_num hlen
      · rfl
      · exact isFinite_div_listMax
          (by
            have := agencyCounts_ne_nil c rest
            simpa [List.map_eq_nil_iff] using this)
          hlen
      · rfl
      · exact isFinite_div_num hlen
      · exact isFinite_div_num hlen
      · exact isFinite_div_num hlen
      · exact isFinite_div_num hlen
      · exact isFinite_div_num hlen

/-- C4 witness: finiteness applied to a concrete one-award collection's
`avgAward` entry. -/
theorem c4_witness :
    alookup (routeExtractFeatures [c3Award]) "avgAward" =
      some (JsNum.num 100) ∧ (JsNum.num 100).isFinite = true := by
  constructor
  · norm_num +decide [routeExtractFeatures, c3Award, alookup, jsListMax,
      jsSumQ, JsNum.div, agencyCounts, agencyKey, upsertAdd, groupByYear,
      routeGrowthRate, stableSort, strLeB, insertLe]
  · exact c4_route_extractor_finite [c3Award] "avgAward" (JsNum.num 100)
      (by norm_num +decide [routeExtractFeatures, c3Award, alookup, jsListMax,
        jsSumQ, JsNum.div, agencyCounts, agencyKey, upsertAdd, groupByYear,
        routeGrowthRate, stableSort, strLeB, insertLe])

/-- C6 counterexample: an untrained detector's `scoreContractor` takes the
default path, whose confidence is the hard-coded `0.7` — not the claimed
`round(base_confidence × data_completeness, 2)`, which is `0` on an empty
vector; in particular the empty vector does not yield confidence `≤ 0.1`. -/
theorem c6_counterexample :
    (scoreContractor freshDetector []).confidence = 7 / 10 ∧
    ¬ ((scoreContractor freshDetector []).confidence ≤ 1 / 10) ∧
    jsRound2 ((if freshDetector.trained then 17 / 20 else 7 / 10) *
      min ((0 : ℚ) / 10) 1) = 0 := by
  have hconf : (scoreContractor freshDetector []).confidence = 7 / 10 := rfl
  refine ⟨hconf, ?_, ?_⟩
  · rw [hconf]
    norm_num
  · norm_num [freshDetector, jsRound2, jsRound_eq_floor]

/-- C6 amended: `calculateConfidence` is
`round(base_confidence × data_completeness, 2)` with base `0.85`/`0.70`
by the `trained` flag and completeness `min(count/10, 1)`; the healthcare
scorer and the trained-or-profiled contractor path report it (so an empty
vector yields confidence `0 ≤ 0.1` there), but the untrained contractor
path reports the fixed `0.7` instead. -/
theorem c6_confidence :
    (∀ (st : FraudDetector) (f : FeatureVec),
      calculateConfidence st f =
        jsRound2 ((if st.trained then 17 / 20 else 7 / 10) *
          min ((f.length : ℚ) / 10) 1)) ∧
    (∀ (st : FraudDetector) (f : FeatureVec),
      (scoreHealthcareProvider st f).confidence = calculateConfidence st f) ∧
    (∀ (st : FraudDetector) (f : FeatureVec),
      (st.trained = true ∨ st.featureStats ≠ []) →
      (scoreContractor st f).confidence = calculateConfidence st f) ∧
    (∀ (st : FraudDetector) (f : FeatureVec),
      st.trained = false → st.featureStats = [] →
      (scoreContractor st f).confidence = 7 / 10) ∧
    (∀ st : FraudDetector, calculateConfidence st [] = 0 ∧
      calculateConfidence st [] ≤ 1 / 10) := by
  refine ⟨fun st f => rfl, fun st f => rfl, ?_, ?_, ?_⟩
  · intro st f h
    rw [scoreContractor, if_neg]
    rintro ⟨h1, h2⟩
    rcases h with h | h
    · rw [h] at h1
      exact absurd h1 (by simp)
    · exact h h2
  · intro st f h1 h2
    rw [scoreContractor, if_pos ⟨h1, h2⟩]
    rfl
  · intro st
    have hz : calculateConfidence st [] = 0 := by
      rw [calculateConfidence]
      norm_num [jsRound2, jsRound_eq_floor]
    exact ⟨hz, by rw [hz]; norm_num⟩

/-- C6 witness: the amended theorem applied to a trained detector with a
one-entry vector and to the default path. -/
theorem c6_witness :
    (scoreContractor (freshDetector.train [] []) [("a", 1)]).confidence =
      calculateConfidence (freshDetector.train [] []) [("a", 1)] ∧
    (scoreContractor freshDetector []).confidence = 7 / 10 ∧
    calculateConfidence freshDetector [] = 0 :=
  ⟨c6_confidence.2.2.1 (freshDetector.train [] []) [("a", 1)] (Or.inl rfl),
   c6_confidence.2.2.2.1 freshDetector [] rfl rfl,
   (c6_confidence.2.2.2.2 freshDetector).1⟩

/-- Modelled from the spec's words for claim C5: the claimed z-score with
a `max(std, 1)` divisor (the source instead divides by `std || 1`). -/
def specAnomalyZ (value mean std : ℚ) : ℚ := (value - mean) / max std 1

/-- The per-feature anomaly rule the code implements: divisor
`std || 1`, cutoff comparison, contribution `min(round(|z| × 5), 15)`,
severity `high` above `|z| = 3`. -/
def anomalyFactorRule (st : FraudDetector) (cutoff : ℚ) (p : String × ℚ) :
    Option Factor :=
  match alookup st.featureStats p.1 with
  | none => none
  | some stats =>
      let z := (p.2 - stats.mean) / (if stats.std = 0 then 1 else stats.std)
      if cutoff < |z| then
        some { ftype := "STATISTICAL_ANOMALY",
               contribution := min (jsRound (|z| * 5)) 15,
               severity := if 3 < |z| then "high" else "medium" }
      else none

/-- One `detectAnomalies` iteration splits into the empty-accumulator
iteration plus the incoming accumulator. -/
theorem anomalyStep_split (st : FraudDetector) (acc : ℤ × List Factor)
    (p : String × ℚ) :
    anomalyStep st acc p =
      (acc.1 + (anomalyStep st (0, []) p).1,
       acc.2 ++ (anomalyStep st (0, []) p).2) := by
  rcases h : alookup st.featureStats p.1 with _ | stats
  · simp [anomalyStep, h]
  · by_cases hc : optGt
      (some |(p.2 - stats.mean) / (if stats.std = 0 then 1 else stats.std)|)
      st.thresholds.zScoreThreshold
    · simp [anomalyStep, h, hc]
    · simp [anomalyStep, h, hc]

/-- The `detectAnomalies` fold from any accumulator. -/
theorem anomalyFold_acc (st : FraudDetector) (l : FeatureVec) :
    ∀ acc : ℤ × List Factor,
      l.foldl (anomalyStep st) acc =
        (acc.1 + (l.foldl (anomalyStep st) (0, [])).1,
         acc.2 ++ (l.foldl (anomalyStep st) (0, [])).2) := by
  induction l with
  | nil => intro acc; simp
  | cons p rest ih =>
      intro acc
      simp only [List.foldl_cons]
      rw [ih (anomalyStep st acc p), ih (anomalyStep st (0, []) p),
        anomalyStep_split st acc p]
      simp [add_assoc, List.append_assoc]

/-- C5 amended: with a present cutoff, `detectAnomalies` emits exactly the
factors of the per-feature rule with divisor `std || 1` (not the claimed
`max(std, 1)`), its score is their contribution sum, and the default
table's cutoff is `2.5`. -/
theorem c5_anomaly_characterization :
    ∀ (st : FraudDetector) (f : FeatureVec) (cutoff : ℚ),
      st.thresholds.zScoreThreshold = some cutoff →
      (detectAnomalies st f).2 = f.filterMap (anomalyFactorRule st cutoff) ∧
      (detectAnomalies st f).1 =
        (((f.filterMap (anomalyFactorRule st cutoff)).map
          Factor.contribution).sum) ∧
      defaultThresholds.zScoreThreshold = some (5 / 2) := by
  intro st f cutoff hcut
  have hstep : ∀ p : String × ℚ,
      anomalyStep st (0, []) p =
        (match anomalyFactorRule st cutoff p with
         | some fac => (fac.contribution, [fac])
         | none => ((0 : ℤ), ([] : List Factor))) := by
    intro p
    rcases h : alookup st.featureStats p.1 with _ | stats
    · simp [anomalyStep, anomalyFactorRule, h]
    · by_cases hc : cutoff <
        |(p.2 - stats.mean) / (if stats.std = 0 then 1 else stats.std)|
      · simp [anomalyStep, anomalyFactorRule, h, hcut, optGt, hc]
      · simp [anomalyStep, anomalyFactorRule, h, hcut, optGt, hc]
  have main : ∀ l : FeatureVec,
      (detectAnomalies st l).2 = l.filterMap (anomalyFactorRule st cutoff) ∧
      (detectAnomalies st l).1 =
        (((l.filterMap (anomalyFactorRule st cutoff)).map
          Factor.contribution).sum) := by
    intro l
    induction l with
    | nil => exact ⟨rfl, rfl⟩
    | cons p rest ih =>
        have hfold :
            detectAnomalies st (p :: rest) =
              ((anomalyStep st (0, []) p).1 + (detectAnomalies st rest).1,
               (anomalyStep st (0, []) p).2 ++ (detectAnomalies st rest).2) := by
          show (p :: rest).foldl (anomalyStep st) (0, []) = _
          rw [List.foldl_cons, anomalyFold_acc st rest (anomalyStep st (0, []) p)]
          rfl
        rw [hfold, hstep p]
        rcases hr : anomalyFactorRule st cutoff p with _ | fac
        · simpa [List.filterMap_cons, hr] using ih
        · simp only [List.filterMap_cons, hr]
          exact ⟨by simp [ih.1], by simp [ih.2]⟩
  exact ⟨(main f).1, (main f).2, rfl⟩

/-- The statistics profile used by the C5 concrete instances. -/
def c5Stats : FeatureStats :=
  { mean := 0, std := 1 / 2, min := 0, max := 0, median := 0,
    p25 := 0, p75 := 0, p90 := 0, p95 := 0, count := 1 }

/-- A trained detector whose profile has standard deviation `1/2` for
feature `x`. -/
def c5Detector : FraudDetector :=
  { trained := true, featureStats := [("x", c5Stats)],
    fraudPatterns := emptyPatterns, thresholds := defaultThresholds,
    modelVersion := "1.0.0" }

/-- C5 counterexample: with `std = 1/2`, value `3/2` and the default
cutoff `2.5`, the code emits a `STATISTICAL_ANOMALY` factor (its `z` is
`3`), although the claimed `z = (value − mean)/max(std, 1)` is only
`3/2`, below the cutoff — so the claimed "exactly when" fails. -/
theorem c5_counterexample :
    (detectAnomalies c5Detector [("x", 3 / 2)]).2.length = 1 ∧
    ¬ (5 / 2 < |specAnomalyZ (3 / 2) 0 (1 / 2)|) ∧
    c5Detector.thresholds.zScoreThreshold = some (5 / 2) := by
  have hz : ((3 : ℚ) / 2 - 0) / (if (1 : ℚ) / 2 = 0 then 1 else 1 / 2) = 3 := by
    norm_num
  have habs : |(3 : ℚ)| = 3 := by
    rw [abs_of_nonneg]
    norm_num
  refine ⟨?_, ?_, rfl⟩
  · have h15 : jsRound ((3 : ℚ) * 5) = 15 := by
      norm_num [jsRound_eq_floor]
    simp [detectAnomalies, anomalyStep, alookup, c5Detector, c5Stats,
      defaultThresholds, emptyPatterns, hz, habs, optGt, h15]
    norm_num
  · rw [specAnomalyZ]
    have hm : max ((1 : ℚ) / 2) 1 = 1 := by
      rw [max_eq_right]
      norm_num
    rw [hm]
    norm_num [abs_of_nonneg]

/-- C5 witness: the characterization applied to the concrete detector and
single-feature vector, with the cutoff hypothesis discharged. -/
theorem c5_witness :
    (detectAnomalies c5Detector [("x", 3 / 2)]).2 =
      [("x", (3 : ℚ) / 2)].filterMap (anomalyFactorRule c5Detector (5 / 2)) ∧
    (detectAnomalies c5Detector [("x", 3 / 2)]).1 =
      ((([("x", (3 : ℚ) / 2)].filterMap
        (anomalyFactorRule c5Detector (5 / 2))).map Factor.contribution).sum) :=
  ⟨(c5_anomaly_characterization c5Detector [("x", 3 / 2)] (5 / 2) rfl).1,
   (c5_anomaly_characterization c5Detector [("x", 3 / 2)] (5 / 2) rfl).2.1⟩

/-- Risk-level consistency of a score result with a threshold table that
carries both boundaries. -/
def riskConsistent (st : FraudDetector) (r : ScoreResult) : Prop :=
  ∀ hq lq : ℚ, st.thresholds.highRiskMin = some hq →
    st.thresholds.lowRiskMax = some lq →
    (r.riskLevel = "High" ↔ hq ≤ (r.score : ℚ)) ∧
    (r.riskLevel = "Medium" ↔ ((r.score : ℚ) < hq ∧ lq ≤ (r.score : ℚ))) ∧
    (r.riskLevel = "Low" ↔ ((r.score : ℚ) < hq ∧ (r.score : ℚ) < lq))

/-- `getRiskLevel` is the three-way comparison of the claim whenever both
boundaries are present. -/
theorem getRiskLevel_spec (st : FraudDetector) (s : ℤ) (hq lq : ℚ)
    (h1 : st.thresholds.highRiskMin = some hq)
    (h2 : st.thresholds.lowRiskMax = some lq) :
    (getRiskLevel st s = "High" ↔ hq ≤ (s : ℚ)) ∧
    (getRiskLevel st s = "Medium" ↔ ((s : ℚ) < hq ∧ lq ≤ (s : ℚ))) ∧
    (getRiskLevel st s = "Low" ↔ ((s : ℚ) < hq ∧ (s : ℚ) < lq)) := by
  rw [getRiskLevel, h1, h2]
  by_cases c1 : hq ≤ (s : ℚ)
  · rw [if_pos (by simp [geOpt, c1])]
    refine ⟨by simp [c1], ?_, ?_⟩
    · simp +decide [not_lt.mpr c1]
    · simp +decide [not_lt.mpr c1]
  · rw [if_neg (by simp [geOpt, c1])]
    by_cases c2 : lq ≤ (s : ℚ)
    · rw [if_pos (by simp [geOpt, c2])]
      refine ⟨by simp +decide [c1], ?_, ?_⟩
      · simp [not_le.mp c1, c2]
      · simp +decide [not_lt.mpr c2]
    · rw [if_neg (by simp [geOpt, c2])]
      exact ⟨by simp +decide [c1], by simp +decide [c2],
        by simp [not_le.mp c1, not_le.mp c2]⟩

/-- A score result whose risk level is `getRiskLevel` of its own score is
consistent. -/
theorem riskConsistent_of_getRiskLevel (st : FraudDetector) (r : ScoreResult)
    (h : r.riskLevel = getRiskLevel st r.score) : riskConsistent st r := by
  intro hq lq h1 h2
  rw [h]
  exact getRiskLevel_spec st r.score hq lq h1 h2

/-- The contractor scorer's risk level is `getRiskLevel` of its score. -/
theorem scoreContractor_riskLevel (st : FraudDetector) (f : FeatureVec) :
    (scoreContractor st f).riskLevel =
      getRiskLevel st (scoreContractor st f).score := by
  unfold scoreContractor
  split
  · rfl
  · rfl

/-- Every anomaly contribution is nonnegative, so the anomaly fold never
drops below its starting score. -/
theorem anomaly_foldl_nonneg (st : FraudDetector) :
    ∀ (l : FeatureVec) (acc : ℤ × List Factor), 0 ≤ acc.1 →
      0 ≤ (l.foldl (anomalyStep st) acc).1 := by
  intro l
  induction l with
  | nil => intro acc h; simpa using h
  | cons p rest ih =>
      intro acc h
      rw [List.foldl_cons]
      refine ih (anomalyStep st acc p) ?_
      rcases hs : alookup st.featureStats p.1 with _ | stats
      · simpa [anomalyStep, hs] using h
      · by_cases hc : optGt
          (some |(p.2 - stats.mean) / (if stats.std = 0 then 1 else stats.std)|)
          st.thresholds.zScoreThreshold
        · have hr : 0 ≤ min (jsRound
            (|(p.2 - stats.mean) / (if stats.std = 0 then 1 else stats.std)| * 5))
              15 := by
            refine le_min (jsRound_nonneg ?_) (by norm_num)
            have := abs_nonneg
              ((p.2 - stats.mean) / (if stats.std = 0 then 1 else stats.std))
            nlinarith
          simp only [anomalyStep, hs, hc, if_pos]
          exact add_nonneg h hr
        · simpa [anomalyStep, hs, hc] using h

/-- `detectAnomalies` contributes a nonnegative score. -/
theorem detectAnomalies_nonneg (st : FraudDetector) (f : FeatureVec) :
    0 ≤ (detectAnomalies st f).1 :=
  anomaly_foldl_nonneg st f (0, []) le_rfl

/-- With nonnegative pattern weights, the pattern fold never drops below
its starting score. -/
theorem pattern_foldl_nonneg (f : FeatureVec) :
    ∀ (l : List PatternEntry) (acc : ℤ × List Factor),
      (∀ pe ∈ l, 0 ≤ pe.weight) → 0 ≤ acc.1 →
      0 ≤ (l.foldl (patternStep f) acc).1 := by
  intro l
  induction l with
  | nil => intro acc _ h; simpa using h
  | cons pe rest ih =>
      intro acc hw h
      rw [List.foldl_cons]
      refine ih (patternStep f acc pe) (fun q hq => hw q (List.mem_cons_of_mem pe hq)) ?_
      by_cases hc : optTruthy (alookup f (normalizeIndicator pe.indicator)) &&
          optGt (alookup f (normalizeIndicator pe.indicator)) (some 0)
      · have hwpe : 0 ≤ pe.weight := hw pe (List.mem_cons_self pe rest)
        have hr : 0 ≤ jsRound (pe.weight * 20) :=
          jsRound_nonneg (by nlinarith)
        simp only [patternStep, hc, if_pos]
        exact add_nonneg h hr
      · simpa [patternStep, hc] using h

/-- `matchFraudPatterns` contributes a nonnegative score when every
pattern weight is nonnegative (as `learnFraudPatterns` guarantees). -/
theorem matchFraudPatterns_nonneg (st : FraudDetector) (f : FeatureVec)
    (hw : ∀ pe ∈ st.fraudPatterns.commonFactors, 0 ≤ pe.weight) :
    0 ≤ (matchFraudPatterns st f).1 :=
  pattern_foldl_nonneg f st.fraudPatterns.commonFactors (0, []) hw le_rfl

/-- A rule branch whose contribution is nonnegative past its threshold
contributes a nonnegative score. -/
theorem ruleBranch_nonneg (f : FeatureVec) (key : String) (θ : ℚ)
    (contrib : ℚ → ℤ) (ft : String) (sev : ℤ → String)
    (hc : ∀ v, θ < v → 0 ≤ contrib v) :
    0 ≤ (ruleBranch f key θ contrib ft sev).1 := by
  rcases h : alookup f key with _ | v
  · simp [ruleBranch, h]
  · by_cases hv : θ < v
    · simpa [ruleBranch, h, hv] using hc v hv
    · simp [ruleBranch, h, hv]

/-- The default contractor scorer's total is clamped to `[0, 100]`: every
rule contribution is nonnegative past its hard-coded threshold. -/
theorem defaultContractorScoring_score_bounds (st : FraudDetector)
    (f : FeatureVec) :
    0 ≤ (defaultContractorScoring st f).score ∧
      (defaultContractorScoring st f).score ≤ 100 := by
  simp only [defaultContractorScoring]
  refine ⟨le_min ?_ (by norm_num), min_le_right _ _⟩
  refine add_nonneg (add_nonneg (add_nonneg (add_nonneg (add_nonneg ?_ ?_) ?_) ?_) ?_) ?_
  · exact ruleBranch_nonneg _ _ _ _ _ _
      (fun v hv => jsRound_nonneg (by linarith))
  · exact ruleBranch_nonneg _ _ _ _ _ _ (fun v _ => by norm_num)
  · exact ruleBranch_nonneg _ _ _ _ _ _
      (fun v hv => jsRound_nonneg (by linarith))
  · exact ruleBranch_nonneg _ _ _ _ _ _
      (fun v hv => le_min (jsRound_nonneg (by linarith)) (by norm_num))
  · exact ruleBranch_nonneg _ _ _ _ _ _
      (fun v hv => jsRound_nonneg (by linarith))
  · exact ruleBranch_nonneg _ _ _ _ _ _ (fun v _ => by norm_num)

/-- The healthcare scorer's total is clamped to `[0, 100]` provided the
high-complexity cutoff, when present, is at least `3/16` (the default
`0.4` is); below that the first rule can contribute negatively. -/
theorem scoreHealthcareProvider_score_bounds (st : FraudDetector)
    (f : FeatureVec)
    (hc : ∀ t, st.thresholds.highComplexityRatio = some t → 3 / 16 ≤ t) :
    0 ≤ (scoreHealthcareProvider st f).score ∧
      (scoreHealthcareProvider st f).score ≤ 100 := by
  simp only [scoreHealthcareProvider]
  refine ⟨le_min ?_ (by norm_num), min_le_right _ _⟩
  refine add_nonneg (add_nonneg (add_nonneg (add_nonneg (add_nonneg ?_ ?_) ?_) ?_) ?_) ?_
  · rcases h : alookup f "highComplexityRatio" with _ | v
    · simp [h]
    · by_cases hgt : optGt (some v) st.thresholds.highComplexityRatio
      · rcases ht : st.thresholds.highComplexityRatio with _ | t
        · rw [ht] at hgt
          simp [optGt] at hgt
        · have htv : t < v := by
            rw [ht] at hgt
            simpa [optGt] using hgt
          have h316 := hc t ht
          have hr : 0 ≤ jsRound ((v - 5⁻¹) * 40) :=
            jsRound_nonneg (by
              rw [inv_eq_one_div]
              linarith)
          simp [h, ht, optGt, htv, hr]
      · simp [h, hgt]
  · rcases h : alookup f "totalPharmaPayments" with _ | v
    · simp [h]
    · by_cases hgt : optGt (some v) st.thresholds.pharmaPaymentHigh
      · by_cases hvh : optGt (some v) st.thresholds.pharmaPaymentVeryHigh <;>
          simp [h, hgt, hvh]
      · simp [h, hgt]
  · exact ruleBranch_nonneg _ _ _ _ _ _ (fun v _ => by norm_num)
  · by_cases hb : optTruthy (alookup f "hasExclusionHistory") <;> simp [hb]
  · by_cases hb : optTruthy (alookup f "relatedPartyExcluded") <;> simp [hb]
  · exact ruleBranch_nonneg _ _ _ _ _ _ (fun v _ => by norm_num)

/-- The ensemble contractor scorer's total is clamped to `[0, 100]` when
every pattern weight is nonnegative. -/
theorem scoreContractor_score_bounds (st : FraudDetector) (f : FeatureVec)
    (hw : ∀ pe ∈ st.fraudPatterns.commonFactors, 0 ≤ pe.weight) :
    0 ≤ (scoreContractor st f).score ∧ (scoreContractor st f).score ≤ 100 := by
  unfold scoreContractor
  split
  · exact defaultContractorScoring_score_bounds st f
  · refine ⟨le_min ?_ (by norm_num), min_le_right _ _⟩
    have ha := detectAnomalies_nonneg st f
    have hp := matchFraudPatterns_nonneg st f hw
    have hr : (applyContractorRules st f).1 = 0 := rfl
    rw [hr, add_zero]
    exact add_nonneg ha hp

/-- C1 counterexample: a threshold table with a `highComplexityRatio`
cutoff of `0` (a legitimate flat table) makes the healthcare scorer
return the negative score `-2` on the vector with `highComplexityRatio`
`0.15`, violating `0 ≤ score`. -/
theorem c1_counterexample :
    (scoreHealthcareProvider
      { freshDetector with
        thresholds := { defaultThresholds with highComplexityRatio := some 0 } }
      [("highComplexityRatio", 3 / 20)]).score = -2 ∧
    ¬ (0 ≤ (scoreHealthcareProvider
      { freshDetector with
        thresholds := { defaultThresholds with highComplexityRatio := some 0 } }
      [("highComplexityRatio", 3 / 20)]).score) := by
  have hs : (scoreHealthcareProvider
      { freshDetector with
        thresholds := { defaultThresholds with highComplexityRatio := some 0 } }
      [("highComplexityRatio", 3 / 20)]).score = -2 := by
    norm_num +decide [scoreHealthcareProvider, freshDetector, defaultThresholds,
      emptyPatterns, alookup, ruleBranch, optGt, optTruthy, jsRound_eq_floor,
      Int.floor_eq_iff]
  refine ⟨hs, by rw [hs]; norm_num⟩

/-- C1 amended: for every feature vector, profile and well-formed pattern
list (nonnegative weights, as `learnFraudPatterns` produces), and every
threshold table whose `highComplexityRatio` cutoff — when present — is at
least `3/16` (the default `0.4` qualifies), both scorers return an
integer score in `[0, 100]` whose risk level is the claimed three-way
comparison with the table's boundaries. -/
theorem c1_score_bounds_and_risk_level (st : FraudDetector) (f : FeatureVec)
    (hw : ∀ pe ∈ st.fraudPatterns.commonFactors, 0 ≤ pe.weight)
    (hc : ∀ t, st.thresholds.highComplexityRatio = some t → 3 / 16 ≤ t) :
    (0 ≤ (scoreContractor st f).score ∧ (scoreContractor st f).score ≤ 100 ∧
      riskConsistent st (scoreContractor st f)) ∧
    (0 ≤ (scoreHealthcareProvider st f).score ∧
      (scoreHealthcareProvider st f).score ≤ 100 ∧
      riskConsistent st (scoreHealthcareProvider st f)) := by
  obtain ⟨hcl, hcu⟩ := scoreContractor_score_bounds st f hw
  obtain ⟨hhl, hhu⟩ := scoreHealthcareProvider_score_bounds st f hc
  exact ⟨⟨hcl, hcu,
      riskConsistent_of_getRiskLevel st _ (scoreContractor_riskLevel st f)⟩,
    ⟨hhl, hhu,
      riskConsistent_of_getRiskLevel st _
        (scoreHealthcareProvider_riskLevel st f)⟩⟩

/-- C1 witness: the bounds theorem applied to a trained detector (default
thresholds, empty pattern list) and a one-flag vector. -/
theorem c1_witness :
    (0 ≤ (scoreContractor (freshDetector.train [] [])
        [("hasExclusionHistory", 1)]).score ∧
      (scoreContractor (freshDetector.train [] [])
        [("hasExclusionHistory", 1)]).score ≤ 100 ∧
      riskConsistent (freshDetector.train [] [])
        (scoreContractor (freshDetector.train [] [])
          [("hasExclusionHistory", 1)])) ∧
    (0 ≤ (scoreHealthcareProvider (freshDetector.train [] [])
        [("hasExclusionHistory", 1)]).score ∧
      (scoreHealthcareProvider (freshDetector.train [] [])
        [("hasExclusionHistory", 1)]).score ≤ 100 ∧
      riskConsistent (freshDetector.train [] [])
        (scoreHealthcareProvider (freshDetector.train [] [])
          [("hasExclusionHistory", 1)])) :=
  c1_score_bounds_and_risk_level (freshDetector.train [] [])
    [("hasExclusionHistory", 1)]
    (fun pe hpe => absurd hpe (by simp +decide [FraudDetector.train,
      learnFraudPatterns, stableSort]))
    (fun t ht => by
      have h25 : (freshDetector.train [] []).thresholds.highComplexityRatio =
          some (2 / 5) := rfl
      rw [h25] at ht
      injection ht with h
      rw [← h]
      norm_num)

/-- Overwrite one feature's value, leaving all other keys unchanged. -/
def setFeature (f : FeatureVec) (k : String) (w : ℚ) : FeatureVec :=
  f.map (fun p => if p.1 == k then (p.1, w) else p)

/-- Updating a present key makes its lookup return the new value. -/
theorem alookup_setFeature_self {f : FeatureVec} {k : String} {v w : ℚ}
    (h : alookup f k = some v) : alookup (setFeature f k w) k = some w := by
  induction f with
  | nil => simp [alookup] at h
  | cons p rest ih =>
      by_cases hk : p.1 == k
      · simp [setFeature, alookup, hk]
      · simp only [alookup, hk] at h
        simpa [setFeature, alookup, hk] using ih (by simpa [alookup] using h)

/-- Updating one key leaves every other key's lookup unchanged. -/
theorem alookup_setFeature_ne {f : FeatureVec} {k k' : String} {w : ℚ}
    (h : k' ≠ k) : alookup (setFeature f k w) k' = alookup f k' := by
  induction f with
  | nil => rfl
  | cons p rest ih =>
      by_cases hk : p.1 == k
      · have hp : p.1 = k := by simpa using hk
        have hne : (p.1 == k') = false := by
          simp only [hp, beq_eq_false_iff_ne]
          exact fun hh => h hh.symm
        simp only [setFeature, List.map, if_pos hk, alookup, hne]
        exact ih
      · by_cases hk' : p.1 == k'
        · simp only [setFeature, List.map, if_neg hk, alookup, hk', if_true]
        · simp only [setFeature, List.map, if_neg hk, alookup, hk',
            Bool.false_eq_true, if_false]
          exact ih

/-- A rule branch with an untouched key is unchanged by the update. -/
theorem ruleBranch_setFeature_ne (f : FeatureVec) (k : String) (w : ℚ)
    (key : String) (θ : ℚ) (contrib : ℚ → ℤ) (ft : String)
    (sev : ℤ → String) (h : key ≠ k) :
    ruleBranch (setFeature f k w) key θ contrib ft sev =
      ruleBranch f key θ contrib ft sev := by
  unfold ruleBranch
  rw [alookup_setFeature_ne h]

/-- Raising an already-firing rule feature cannot lower that branch's
contribution when the branch contribution is monotone past the
threshold. -/
theorem ruleBranch_setFeature_mono (f : FeatureVec) (k : String)
    (θ v w : ℚ) (contrib : ℚ → ℤ) (ft : String) (sev : ℤ → String)
    (hl : alookup f k = some v) (hθ : θ < v) (hvw : v ≤ w)
    (hmono : ∀ a b : ℚ, θ < a → a ≤ b → contrib a ≤ contrib b) :
    (ruleBranch f k θ contrib ft sev).1 ≤
      (ruleBranch (setFeature f k w) k θ contrib ft sev).1 := by
  unfold ruleBranch
  simp only [hl, alookup_setFeature_self hl]
  rw [if_pos hθ, if_pos (lt_of_lt_of_le hθ hvw)]
  exact hmono v w hθ hvw

/-- The rule thresholds of the six default-path ratio features. -/
def defaultRuleThreshold (k : String) : Option ℚ :=
  if k = "largeAwardRatio" then some (3 / 10)
  else if k = "agencyConcentration" then some (4 / 5)
  else if k = "soleSourceRatio" then some (1 / 2)
  else if k = "yearOverYearGrowth" then some 2
  else if k = "highRiskCategoryRatio" then some (3 / 10)
  else if k = "defenseRatio" then some (7 / 10)
  else none

/-- The default contractor score, written out. -/
theorem defaultContractorScoring_score (st : FraudDetector) (f : FeatureVec) :
    (defaultContractorScoring st f).score =
      min ((ruleBranch f "largeAwardRatio" (3 / 10) (fun v => jsRound (v * 30))
          "LARGE_AWARD_CONCENTRATION"
          (fun c => if 15 < c then "high" else "medium")).1 +
        (ruleBranch f "agencyConcentration" (4 / 5) (fun _ => 10)
          "AGENCY_CONCENTRATION" (fun _ => "low")).1 +
        (ruleBranch f "soleSourceRatio" (1 / 2) (fun v => jsRound (v * 25))
          "HIGH_SOLE_SOURCE" (fun _ => "medium")).1 +
        (ruleBranch f "yearOverYearGrowth" 2
          (fun v => min (jsRound ((v - 1) * 15)) 25)
          "RAPID_GROWTH" (fun c => if 15 < c then "high" else "medium")).1 +
        (ruleBranch f "highRiskCategoryRatio" (3 / 10)
          (fun v => jsRound (v * 20)) "HIGH_RISK_CATEGORY"
          (fun _ => "low")).1 +
        (ruleBranch f "defenseRatio" (7 / 10) (fun _ => 5)
          "DEFENSE_CONCENTRATION" (fun _ => "low")).1) 100 := rfl

/-- C7 amended: for the untrained default contractor scorer, raising any
single rule-table ratio feature that is already beyond its rule threshold
never decreases the total score.  (The ensemble path violates this; see
the counterexample.) -/
theorem c7_default_rules_monotone (st : FraudDetector) (f : FeatureVec)
    (k : String) (θ v w : ℚ)
    (hθk : defaultRuleThreshold k = some θ)
    (hl : alookup f k = some v) (hv : θ < v) (hw : v ≤ w) :
    (defaultContractorScoring st f).score ≤
      (defaultContractorScoring st (setFeature f k w)).score := by
  rw [defaultContractorScoring_score, defaultContractorScoring_score]
  by_cases k1 : k = "largeAwardRatio"
  · subst k1
    have he : defaultRuleThreshold "largeAwardRatio" = some (3 / 10) := by
      simp +decide [defaultRuleThreshold]
    rw [he] at hθk
    injection hθk with hh
    subst hh
    rw [ruleBranch_setFeature_ne f _ w "agencyConcentration" _ _ _ _ (by decide),
      ruleBranch_setFeature_ne f _ w "soleSourceRatio" _ _ _ _ (by decide),
      ruleBranch_setFeature_ne f _ w "yearOverYearGrowth" _ _ _ _ (by decide),
      ruleBranch_setFeature_ne f _ w "highRiskCategoryRatio" _ _ _ _ (by decide),
      ruleBranch_setFeature_ne f _ w "defenseRatio" _ _ _ _ (by decide)]
    have hm := ruleBranch_setFeature_mono f _ _ v w (fun a => jsRound (a * 30))
      "LARGE_AWARD_CONCENTRATION" (fun c => if 15 < c then "high" else "medium")
      hl hv hw (fun a b _ hab => jsRound_mono (by linarith))
    refine min_le_min ?_ le_rfl
    exact add_le_add (add_le_add (add_le_add (add_le_add
      (add_le_add hm le_rfl) le_rfl) le_rfl) le_rfl) le_rfl
  by_cases k2 : k = "agencyConcentration"
  · subst k2
    have he : defaultRuleThreshold "agencyConcentration" = some (4 / 5) := by
      simp +decide [defaultRuleThreshold]
    rw [he] at hθk
    injection hθk with hh
    subst hh
    rw [ruleBranch_setFeature_ne f _ w "largeAwardRatio" _ _ _ _ (by decide),
      ruleBranch_setFeature_ne f _ w "soleSourceRatio" _ _ _ _ (by decide),
      ruleBranch_setFeature_ne f _ w "yearOverYearGrowth" _ _ _ _ (by decide),
      ruleBranch_setFeature_ne f _ w "highRiskCategoryRatio" _ _ _ _ (by decide),
      ruleBranch_setFeature_ne f _ w "defenseRatio" _ _ _ _ (by decide)]
    have hm := ruleBranch_setFeature_mono f _ _ v w (fun _ => (10 : ℤ))
      "AGENCY_CONCENTRATION" (fun _ => "low")
      hl hv hw (fun a b _ _ => le_rfl)
    refine min_le_min ?_ le_rfl
    exact add_le_add (add_le_add (add_le_add (add_le_add
      (add_le_add le_rfl hm) le_rfl) le_rfl) le_rfl) le_rfl
  by_cases k3 : k = "soleSourceRatio"
  · subst k3
    have he : defaultRuleThreshold "soleSourceRatio" = some (1 / 2) := by
      simp +decide [defaultRuleThreshold]
    rw [he] at hθk
    injection hθk with hh
    subst hh
    rw [ruleBranch_setFeature_ne f _ w "largeAwardRatio" _ _ _ _ (by decide),
      ruleBranch_setFeature_ne f _ w "agencyConcentration" _ _ _ _ (by decide),
      ruleBranch_setFeature_ne f _ w "yearOverYearGrowth" _ _ _ _ (by decide),
      ruleBranch_setFeature_ne f _ w "highRiskCategoryRatio" _ _ _ _ (by decide),
      ruleBranch_setFeature_ne f _ w "defenseRatio" _ _ _ _ (by decide)]
    have hm := ruleBranch_setFeature_mono f _ _ v w (fun a => jsRound (a * 25))
      "HIGH_SOLE_SOURCE" (fun _ => "medium")
      hl hv hw (fun a b _ hab => jsRound_mono (by linarith))
    refine min_le_min ?_ le_rfl
    exact add_le_add (add_le_add (add_le_add (add_le_add
      (add_le_add le_rfl le_rfl) hm) le_rfl) le_rfl) le_rfl
  by_cases k4 : k = "yearOverYearGrowth"
  · subst k4
    have he : defaultRuleThreshold "yearOverYearGrowth" = some 2 := by
      simp +decide [defaultRuleThreshold]
    rw [he] at hθk
    injection hθk with hh
    subst hh
    rw [ruleBranch_setFeature_ne f _ w "largeAwardRatio" _ _ _ _ (by decide),
      ruleBranch_setFeature_ne f _ w "agencyConcentration" _ _ _ _ (by decide),
      ruleBranch_setFeature_ne f _ w "soleSourceRatio" _ _ _ _ (by decide),
      ruleBranch_setFeature_ne f _ w "highRiskCategoryRatio" _ _ _ _ (by decide),
      ruleBranch_setFeature_ne f _ w "defenseRatio" _ _ _ _ (by decide)]
    have hm := ruleBranch_setFeature_mono f _ _ v w
      (fun a => min (jsRound ((a - 1) * 15)) 25)
      "RAPID_GROWTH" (fun c => if 15 < c then "high" else "medium")
      hl hv hw
      (fun a b _ hab => min_le_min (jsRound_mono (by linarith)) le_rfl)
    refine min_le_min ?_ le_rfl
    exact add_le_add (add_le_add (add_le_add (add_le_add
      (add_le_add le_rfl le_rfl) le_rfl) hm) le_rfl) le_rfl
  by_cases k5 : k = "highRiskCategoryRatio"
  · subst k5
    have he : defaultRuleThreshold "highRiskCategoryRatio" = some (3 / 10) := by
      simp +decide [defaultRuleThreshold]
    rw [he] at hθk
    injection hθk with hh
    subst hh
    rw [ruleBranch_setFeature_ne f _ w "largeAwardRatio" _ _ _ _ (by decide),
      ruleBranch_setFeature_ne f _ w "agencyConcentration" _ _ _ _ (by decide),
      ruleBranch_setFeature_ne f _ w "soleSourceRatio" _ _ _ _ (by decide),
      ruleBranch_setFeature_ne f _ w "yearOverYearGrowth" _ _ _ _ (by decide),
      ruleBranch_setFeature_ne f _ w "defenseRatio" _ _ _ _ (by decide)]
    have hm := ruleBranch_setFeature_mono f _ _ v w (fun a => jsRound (a * 20))
      "HIGH_RISK_CATEGORY" (fun _ => "low")
      hl hv hw (fun a b _ hab => jsRound_mono (by linarith))
    refine min_le_min ?_ le_rfl
    exact add_le_add (add_le_add (add_le_add (add_le_add
      (add_le_add le_rfl le_rfl) le_rfl) le_rfl) hm) le_rfl
  by_cases k6 : k = "defenseRatio"
  · subst k6
    have he : defaultRuleThreshold "defenseRatio" = some (7 / 10) := by
      simp +decide [defaultRuleThreshold]
    rw [he] at hθk
    injection hθk with hh
    subst hh
    rw [ruleBranch_setFeature_ne f _ w "largeAwardRatio" _ _ _ _ (by decide),
      ruleBranch_setFeature_ne f _ w "agencyConcentration" _ _ _ _ (by decide),
      ruleBranch_setFeature_ne f _ w "soleSourceRatio" _ _ _ _ (by decide),
      ruleBranch_setFeature_ne f _ w "yearOverYearGrowth" _ _ _ _ (by decide),
      ruleBranch_setFeature_ne f _ w "highRiskCategoryRatio" _ _ _ _ (by decide)]
    have hm := ruleBranch_setFeature_mono f _ _ v w (fun _ => (5 : ℤ))
      "DEFENSE_CONCENTRATION" (fun _ => "low")
      hl hv hw (fun a b _ _ => le_rfl)
    refine min_le_min ?_ le_rfl
    exact add_le_add (add_le_add (add_le_add (add_le_add
      (add_le_add le_rfl le_rfl) le_rfl) le_rfl) le_rfl) hm
  simp [defaultRuleThreshold, k1, k2, k3, k4, k5, k6] at hθk

/-- The statistics profile used by the C7 concrete instances: the
`soleSourceRatio` sample mean is far above the rule threshold. -/
def c7Stats : FeatureStats :=
  { mean := 10, std := 1, min := 0, max := 0, median := 0,
    p25 := 0, p75 := 0, p90 := 0, p95 := 0, count := 1 }

/-- A trained detector profiling only `soleSourceRatio`. -/
def c7Detector : FraudDetector :=
  { trained := true, featureStats := [("soleSourceRatio", c7Stats)],
    fraudPatterns := emptyPatterns, thresholds := defaultThresholds,
    modelVersion := "1.0.0" }

/-- C7 counterexample: on the trained (ensemble) path, raising
`soleSourceRatio` from `0.6` (already beyond its `0.5` rule threshold) to
`8` moves its z-score from `-9.4` inside the cutoff, dropping a
15-point `STATISTICAL_ANOMALY` factor: the score strictly decreases. -/
theorem c7_counterexample :
    alookup [("soleSourceRatio", (3 : ℚ) / 5)] "soleSourceRatio" =
      some (3 / 5) ∧
    (1 : ℚ) / 2 < 3 / 5 ∧ (3 : ℚ) / 5 ≤ 8 ∧
    (scoreContractor c7Detector [("soleSourceRatio", 8)]).score <
      (scoreContractor c7Detector [("soleSourceRatio", (3 : ℚ) / 5)]).score := by
  have hz1 : ((3 : ℚ) / 5 - 10) / (if (1 : ℚ) = 0 then 1 else 1) = -(47 / 5) := by
    norm_num
  have habs1 : |(-(47 / 5) : ℚ)| = 47 / 5 := by
    rw [abs_neg, abs_of_nonneg]
    norm_num
  have hz2 : ((8 : ℚ) - 10) / (if (1 : ℚ) = 0 then 1 else 1) = -2 := by
    norm_num
  have habs2 : |(-2 : ℚ)| = 2 := by
    rw [abs_neg, abs_of_nonneg]
    norm_num
  have h47 : jsRound ((47 : ℚ) / 5 * 5) = 47 := by
    norm_num [jsRound_eq_floor]
  have habsA : |((3 : ℚ) / 5 - 10)| = 47 / 5 := by
    rw [abs_of_nonpos (by norm_num)]
    norm_num
  refine ⟨by norm_num +decide [alookup], by norm_num, by norm_num, ?_⟩
  have hlow : (scoreContractor c7Detector [("soleSourceRatio", 8)]).score = 0 := by
    simp +decide [scoreContractor, c7Detector, c7Stats, emptyPatterns,
      defaultThresholds, detectAnomalies, anomalyStep, matchFraudPatterns,
      applyContractorRules, alookup, optGt, hz2, habs2, calculateConfidence]
    norm_num
  have hhigh : (scoreContractor c7Detector
      [("soleSourceRatio", (3 : ℚ) / 5)]).score = 15 := by
    simp +decide [scoreContractor, c7Detector, c7Stats, emptyPatterns,
      defaultThresholds, detectAnomalies, anomalyStep, matchFraudPatterns,
      applyContractorRules, alookup, optGt, habsA, calculateConfidence]
    norm_num [jsRound_eq_floor, min_def]
  rw [hlow, hhigh]
  norm_num

/-- C7 witness: the default-path monotonicity applied to raising
`soleSourceRatio` from `0.6` to `0.8` on an untrained detector. -/
theorem c7_witness :
    (defaultContractorScoring freshDetector
        [("soleSourceRatio", (3 : ℚ) / 5)]).score ≤
      (defaultContractorScoring freshDetector
        (setFeature [("soleSourceRatio", (3 : ℚ) / 5)] "soleSourceRatio"
          (4 / 5))).score :=
  c7_default_rules_monotone freshDetector [("soleSourceRatio", (3 : ℚ) / 5)]
    "soleSourceRatio" (1 / 2) (3 / 5) (4 / 5)
    (by simp +decide [defaultRuleThreshold])
    (by simp +decide [alookup])
    (by norm_num) (by norm_num)
